import Mathlib

/-!
# Pet Care Planner — shallow embedding

A shallow embedding of `src/actions/index.ts` (the action handlers) over the
storage schema declared in the repository's table definitions (`Pets`,
`PetCareRoutines`, `PetCareLogs`, `VetVisits`).

Modelling conventions:
- the database is a record of four lists of rows (insertion order preserved;
  `db.insert` appends, `db.update ... where c` maps the update over every row
  satisfying `c`, `db.delete ... where c` filters rows satisfying `c` out);
- dates are `Nat` (milliseconds since the epoch); a date-typed input is either
  a native date value or an ISO-8601 string (`DateInput`); ISO parsing
  (`new Date(string)`) is an uninterpreted parameter `parseIso`, and
  `JSON.stringify` on a day list is an uninterpreted parameter
  `stringifyDays` — no claim depends on their concrete values;
- the ambient request context is `Option UserId` (`locals.user`, `none` when
  no identity was resolved);
- `crypto.randomUUID()` and each handler invocation's clock reading
  (`new Date()`) are explicit arguments `genId`, `now`;
- every handler returns `(Except ActionError Out) × DB`: the returned `DB` is
  the stored state when the handler finished, also on a thrown `ActionError`
  (in the source every throw happens before any write, which the translation
  reflects literally).
-/

abbrev EntId := String
abbrev UserId := String
abbrev DateVal := Nat

/-- `ActionError` codes used by the handlers. -/
inductive ActionError where
  | unauthorized
  | notFound
  | forbidden
deriving DecidableEq, Repr

/-- A row of the `Pets` table. -/
structure Pet where
  id : EntId
  userId : UserId
  name : String
  species : Option String
  breed : Option String
  gender : Option String
  dateOfBirth : Option DateVal
  color : Option String
  weightKg : Option Int
  notes : Option String
  createdAt : DateVal
  updatedAt : DateVal
deriving DecidableEq, Repr

/-- A row of the `PetCareRoutines` table. -/
structure CareRoutine where
  id : EntId
  petId : EntId
  userId : UserId
  name : String
  description : Option String
  frequency : Option String
  timeOfDayLocal : Option String
  daysOfWeekJson : Option String
  isActive : Bool
  createdAt : DateVal
  updatedAt : DateVal
deriving DecidableEq, Repr

/-- A row of the `PetCareLogs` table. -/
structure CareLog where
  id : EntId
  petId : EntId
  routineId : Option EntId
  userId : UserId
  logDateTime : DateVal
  status : Option String
  notes : Option String
  createdAt : DateVal
deriving DecidableEq, Repr

/-- A row of the `VetVisits` table. -/
structure VetVisit where
  id : EntId
  petId : EntId
  userId : UserId
  visitDate : DateVal
  clinicName : Option String
  reason : Option String
  diagnosis : Option String
  treatment : Option String
  medications : Option String
  followUpDate : Option DateVal
  createdAt : DateVal
deriving DecidableEq, Repr

/-- The stored state: the four tables. -/
structure DB where
  pets : List Pet
  routines : List CareRoutine
  logs : List CareLog
  visits : List VetVisit
deriving DecidableEq, Repr

/-- A date-typed input value after schema validation:
`z.union([z.date(), z.string().datetime()])`. -/
inductive DateInput where
  | date (ms : DateVal)
  | iso (s : String)
deriving DecidableEq, Repr

/-- `z.string().datetime()` accepts only well-formed ISO-8601 date-time
strings; the only facet the handlers' truthiness tests depend on is that a
validated string is nonempty. -/
def DateInput.valid : DateInput → Prop
  | .date _ => True
  | .iso s => s ≠ ""

/-- `requireUser(context)`: fails `UNAUTHORIZED` when no resolved caller
identity is present in the request context. -/
def requireUser (ctx : Option UserId) : Except ActionError UserId :=
  match ctx with
  | none => Except.error ActionError.unauthorized
  | some u => Except.ok u

/-- `parseDateInput(value)`: `undefined` (and the falsy empty string) map to
`undefined`; a native date passes through; a nonempty string is parsed with
`new Date(string)` (the uninterpreted `parseIso`). -/
def parseDateInput (parseIso : String → DateVal) : Option DateInput → Option DateVal
  | none => none
  | some (DateInput.date ms) => some ms
  | some (DateInput.iso s) => if s = "" then none else some (parseIso s)

/-- `assertPetOwnership(petId, userId)`: select filtered by id and userId,
`NOT_FOUND` when no row matches, first matching row otherwise. -/
def assertPetOwnership (petId : EntId) (userId : UserId) (db : DB) :
    Except ActionError Pet :=
  match db.pets.filter (fun p => p.id == petId && p.userId == userId) with
  | [] => Except.error ActionError.notFound
  | p :: _ => Except.ok p

/-- `assertRoutineOwnership(routineId, userId)`: as `assertPetOwnership` but
on the `PetCareRoutines` table. -/
def assertRoutineOwnership (routineId : EntId) (userId : UserId) (db : DB) :
    Except ActionError CareRoutine :=
  match db.routines.filter (fun r => r.id == routineId && r.userId == userId) with
  | [] => Except.error ActionError.notFound
  | r :: _ => Except.ok r

/-- `if (input.f !== undefined) updates.f = input.f` on a required column:
the present input value overrides the stored one. -/
def ovr {α : Type} (new : Option α) (old : α) : α :=
  match new with
  | some v => v
  | none => old

/-- `if (input.f !== undefined) updates.f = input.f` on an optional column. -/
def ovrOpt {α : Type} (new : Option α) (old : Option α) : Option α :=
  match new with
  | some v => some v
  | none => old

/-- `db.update(T).set(u).where(c)`: the row transformer applied by an SQL
UPDATE — rows satisfying the condition are transformed, all others kept. -/
def updWhere {α : Type} (c : α → Bool) (f : α → α) : α → α :=
  fun x => if c x then f x else x

/-- `if (input.f !== undefined) updates.f = parseDateInput(input.f)` on a
required date column (an absent key, or a key set to `undefined`, leaves the
stored value untouched). -/
def ovrDate (parseIso : String → DateVal) (new : Option DateInput) (old : DateVal) :
    DateVal :=
  match parseDateInput parseIso new with
  | some t => t
  | none => old

/-- `if (input.f !== undefined) updates.f = parseDateInput(input.f)` on an
optional date column. -/
def ovrDateOpt (parseIso : String → DateVal) (new : Option DateInput)
    (old : Option DateVal) : Option DateVal :=
  match parseDateInput parseIso new with
  | some t => some t
  | none => old

/-- `value ? a : b` on a validated optional date input: truthy exactly when
present and not the (falsy) empty string. -/
def dateTruthy : Option DateInput → Bool
  | none => false
  | some (DateInput.date _) => true
  | some (DateInput.iso s) => !(s == "")

/-- `input.f ? parseDateInput(input.f) : new Date()` — the creation-time
default for a required date column. -/
def dateOrNow (parseIso : String → DateVal) (new : Option DateInput)
    (now : DateVal) : DateVal :=
  if dateTruthy new then ovrDate parseIso new now else now

/-! ## Validated input shapes (one per operation, after zod validation) -/

/-- `createPet` input. -/
structure CreatePetInput where
  name : String
  species : Option String
  breed : Option String
  gender : Option String
  dateOfBirth : Option DateInput
  color : Option String
  weightKg : Option Int
  notes : Option String
deriving DecidableEq, Repr

/-- `updatePet` input. -/
structure UpdatePetInput where
  id : EntId
  name : Option String
  species : Option String
  breed : Option String
  gender : Option String
  dateOfBirth : Option DateInput
  color : Option String
  weightKg : Option Int
  notes : Option String
deriving DecidableEq, Repr

/-- `createPetCareRoutine` input. -/
structure CreateRoutineInput where
  petId : EntId
  name : String
  description : Option String
  frequency : Option String
  timeOfDayLocal : Option String
  daysOfWeek : Option (List String)
deriving DecidableEq, Repr

/-- `updatePetCareRoutine` input. -/
structure UpdateRoutineInput where
  id : EntId
  petId : Option EntId
  name : Option String
  description : Option String
  frequency : Option String
  timeOfDayLocal : Option String
  daysOfWeek : Option (List String)
  isActive : Option Bool
deriving DecidableEq, Repr

/-- `listPetCareRoutines` input (when the optional object is present;
`includeInactive` already carries its zod default `false`). -/
structure ListRoutinesInput where
  petId : Option EntId
  includeInactive : Bool
deriving DecidableEq, Repr

/-- `createPetCareLog` input. -/
structure CreateLogInput where
  petId : EntId
  routineId : Option EntId
  logDateTime : Option DateInput
  status : Option String
  notes : Option String
deriving DecidableEq, Repr

/-- `createVetVisit` input. -/
structure CreateVisitInput where
  petId : EntId
  visitDate : Option DateInput
  clinicName : Option String
  reason : Option String
  diagnosis : Option String
  treatment : Option String
  medications : Option String
  followUpDate : Option DateInput
deriving DecidableEq, Repr

/-- `updateVetVisit` input. -/
structure UpdateVisitInput where
  id : EntId
  petId : Option EntId
  visitDate : Option DateInput
  clinicName : Option String
  reason : Option String
  diagnosis : Option String
  treatment : Option String
  medications : Option String
  followUpDate : Option DateInput
deriving DecidableEq, Repr

/-! ## Handlers -/

/-- `createPet`: insert a fresh row with `createdAt = updatedAt = now`. -/
def createPet (parseIso : String → DateVal) (ctx : Option UserId)
    (inp : CreatePetInput) (genId : EntId) (now : DateVal) (db : DB) :
    Except ActionError Pet × DB :=
  match requireUser ctx with
  | Except.error e => (Except.error e, db)
  | Except.ok uid =>
    let pet : Pet :=
      { id := genId, userId := uid, name := inp.name, species := inp.species,
        breed := inp.breed, gender := inp.gender,
        dateOfBirth := parseDateInput parseIso inp.dateOfBirth,
        color := inp.color, weightKg := inp.weightKg, notes := inp.notes,
        createdAt := now, updatedAt := now }
    (Except.ok pet, { db with pets := db.pets ++ [pet] })

/-- The row transformer of `updatePet`'s `set(updates)` clause: `updatedAt`
is always bumped, every other column only when present in the input. -/
def applyPetUpdates (parseIso : String → DateVal) (inp : UpdatePetInput)
    (now : DateVal) (p : Pet) : Pet :=
  { p with
    updatedAt := now
    name := ovr inp.name p.name
    species := ovrOpt inp.species p.species
    breed := ovrOpt inp.breed p.breed
    gender := ovrOpt inp.gender p.gender
    color := ovrOpt inp.color p.color
    weightKg := ovrOpt inp.weightKg p.weightKg
    notes := ovrOpt inp.notes p.notes
    dateOfBirth := ovrDateOpt parseIso inp.dateOfBirth p.dateOfBirth }

/-- The SQL UPDATE of `updatePet`: `set(updates)` guarded by
`where(id = input.id AND userId = user.id)`. -/
def petUpd (parseIso : String → DateVal) (inp : UpdatePetInput)
    (now : DateVal) (uid : UserId) : Pet → Pet :=
  updWhere (fun p => p.id == inp.id && p.userId == uid)
    (applyPetUpdates parseIso inp now)

/-- `updatePet`: ownership guard, then a partial update of every row matching
`id = input.id AND userId = user.id`. -/
def updatePet (parseIso : String → DateVal) (ctx : Option UserId)
    (inp : UpdatePetInput) (now : DateVal) (db : DB) :
    Except ActionError Unit × DB :=
  match requireUser ctx with
  | Except.error e => (Except.error e, db)
  | Except.ok uid =>
    match assertPetOwnership inp.id uid db with
    | Except.error e => (Except.error e, db)
    | Except.ok _ =>
      (Except.ok (), { db with pets := db.pets.map (petUpd parseIso inp now uid) })

/-- `deletePet`: ownership guard, then delete every row matching
`id = input.id AND userId = user.id`. -/
def deletePet (ctx : Option UserId) (petId : EntId) (db : DB) :
    Except ActionError Unit × DB :=
  match requireUser ctx with
  | Except.error e => (Except.error e, db)
  | Except.ok uid =>
    match assertPetOwnership petId uid db with
    | Except.error e => (Except.error e, db)
    | Except.ok _ =>
      let remaining := db.pets.filter (fun p => !(p.id == petId && p.userId == uid))
      (Except.ok (), { db with pets := remaining })

/-- `listPets`: all pets owned by the caller. -/
def listPets (ctx : Option UserId) (db : DB) :
    Except ActionError (List Pet) × DB :=
  match requireUser ctx with
  | Except.error e => (Except.error e, db)
  | Except.ok uid => (Except.ok (db.pets.filter fun p => p.userId == uid), db)

/-- `createPetCareRoutine`: guard the target pet, insert with
`isActive = true` and `createdAt = updatedAt = now`; `daysOfWeek`, when
present, is serialized (`JSON.stringify`, the uninterpreted
`stringifyDays`). -/
def createPetCareRoutine (stringifyDays : List String → String)
    (ctx : Option UserId) (inp : CreateRoutineInput) (genId : EntId)
    (now : DateVal) (db : DB) : Except ActionError CareRoutine × DB :=
  match requireUser ctx with
  | Except.error e => (Except.error e, db)
  | Except.ok uid =>
    match assertPetOwnership inp.petId uid db with
    | Except.error e => (Except.error e, db)
    | Except.ok _ =>
      let routine : CareRoutine :=
        { id := genId, petId := inp.petId, userId := uid, name := inp.name,
          description := inp.description, frequency := inp.frequency,
          timeOfDayLocal := inp.timeOfDayLocal,
          daysOfWeekJson := Option.map stringifyDays inp.daysOfWeek,
          isActive := true, createdAt := now, updatedAt := now }
      (Except.ok routine, { db with routines := db.routines ++ [routine] })

/-- The row transformer of `updatePetCareRoutine`'s `set(updates)` clause. -/
def applyRoutineUpdates (stringifyDays : List String → String)
    (inp : UpdateRoutineInput) (now : DateVal) (r : CareRoutine) : CareRoutine :=
  { r with
    updatedAt := now
    petId := ovr inp.petId r.petId
    name := ovr inp.name r.name
    description := ovrOpt inp.description r.description
    frequency := ovrOpt inp.frequency r.frequency
    timeOfDayLocal := ovrOpt inp.timeOfDayLocal r.timeOfDayLocal
    daysOfWeekJson := ovrOpt (Option.map stringifyDays inp.daysOfWeek) r.daysOfWeekJson
    isActive := ovr inp.isActive r.isActive }

/-- The SQL UPDATE of `updatePetCareRoutine`. -/
def routineUpd (stringifyDays : List String → String) (inp : UpdateRoutineInput)
    (now : DateVal) (uid : UserId) : CareRoutine → CareRoutine :=
  updWhere (fun r => r.id == inp.id && r.userId == uid)
    (applyRoutineUpdates stringifyDays inp now)

/-- `updatePetCareRoutine`: guard the routine, then guard
`input.petId ?? routine.petId` (the new target pet when reassigning, the
stored one otherwise), then a partial update of every matching row. -/
def updatePetCareRoutine (stringifyDays : List String → String)
    (ctx : Option UserId) (inp : UpdateRoutineInput) (now : DateVal) (db : DB) :
    Except ActionError Unit × DB :=
  match requireUser ctx with
  | Except.error e => (Except.error e, db)
  | Except.ok uid =>
    match assertRoutineOwnership inp.id uid db with
    | Except.error e => (Except.error e, db)
    | Except.ok routine =>
      match assertPetOwnership (ovr inp.petId routine.petId) uid db with
      | Except.error e => (Except.error e, db)
      | Except.ok _ =>
        (Except.ok (), { db with routines := db.routines.map (routineUpd stringifyDays inp now uid) })

/-- The SQL UPDATE of `archivePetCareRoutine`:
`set({isActive: false, updatedAt: now})` on every matching row. -/
def archiveUpd (rid : EntId) (uid : UserId) (now : DateVal) :
    CareRoutine → CareRoutine :=
  updWhere (fun r => r.id == rid && r.userId == uid)
    (fun r => { r with isActive := false, updatedAt := now })

/-- `archivePetCareRoutine`: guard the routine, then set
`isActive = false` (bumping `updatedAt`) on every matching row. -/
def archivePetCareRoutine (ctx : Option UserId) (routineId : EntId)
    (now : DateVal) (db : DB) : Except ActionError Unit × DB :=
  match requireUser ctx with
  | Except.error e => (Except.error e, db)
  | Except.ok uid =>
    match assertRoutineOwnership routineId uid db with
    | Except.error e => (Except.error e, db)
    | Except.ok _ =>
      (Except.ok (), { db with routines := db.routines.map (archiveUpd routineId uid now) })

/-- `listPetCareRoutines`: filter by the caller's userId; push a petId filter
when `input?.petId` is truthy (a nonempty string), and an
`isActive = true` filter when `input?.includeInactive` is falsy. -/
def listPetCareRoutines (ctx : Option UserId) (inp : Option ListRoutinesInput)
    (db : DB) : Except ActionError (List CareRoutine) × DB :=
  match requireUser ctx with
  | Except.error e => (Except.error e, db)
  | Except.ok uid =>
    let petCond : CareRoutine → Bool := fun r =>
      match inp with
      | none => true
      | some i =>
        match i.petId with
        | none => true
        | some p => if p == "" then true else r.petId == p
    let activeCond : CareRoutine → Bool := fun r =>
      match inp with
      | none => r.isActive
      | some i => if i.includeInactive then true else r.isActive
    (Except.ok (db.routines.filter fun r =>
      r.userId == uid && petCond r && activeCond r), db)

/-- `createPetCareLog`: guard the target pet; when `input.routineId` is
truthy, guard the routine and require its `petId` to equal the supplied one
(`FORBIDDEN` otherwise); insert with `logDateTime` defaulting to now. -/
def createPetCareLog (parseIso : String → DateVal) (ctx : Option UserId)
    (inp : CreateLogInput) (genId : EntId) (now : DateVal) (db : DB) :
    Except ActionError CareLog × DB :=
  match requireUser ctx with
  | Except.error e => (Except.error e, db)
  | Except.ok uid =>
    match assertPetOwnership inp.petId uid db with
    | Except.error e => (Except.error e, db)
    | Except.ok _ =>
      let routineCheck : Except ActionError Unit :=
        match inp.routineId with
        | none => Except.ok ()
        | some rid =>
          if rid == "" then Except.ok ()
          else
            match assertRoutineOwnership rid uid db with
            | Except.error e => Except.error e
            | Except.ok routine =>
              if routine.petId == inp.petId then Except.ok ()
              else Except.error ActionError.forbidden
      match routineCheck with
      | Except.error e => (Except.error e, db)
      | Except.ok _ =>
        let log : CareLog :=
          { id := genId, petId := inp.petId, routineId := inp.routineId,
            userId := uid, logDateTime := dateOrNow parseIso inp.logDateTime now,
            status := inp.status, notes := inp.notes, createdAt := now }
        (Except.ok log, { db with logs := db.logs ++ [log] })

/-- `listPetCareLogs`: guard the target pet, then all logs for that pet owned
by the caller. -/
def listPetCareLogs (ctx : Option UserId) (petId : EntId) (db : DB) :
    Except ActionError (List CareLog) × DB :=
  match requireUser ctx with
  | Except.error e => (Except.error e, db)
  | Except.ok uid =>
    match assertPetOwnership petId uid db with
    | Except.error e => (Except.error e, db)
    | Except.ok _ =>
      (Except.ok (db.logs.filter fun l => l.petId == petId && l.userId == uid), db)

/-- `deletePetCareLog`: inline existence/ownership check on the log row,
then delete every matching row. -/
def deletePetCareLog (ctx : Option UserId) (logId : EntId) (db : DB) :
    Except ActionError Unit × DB :=
  match requireUser ctx with
  | Except.error e => (Except.error e, db)
  | Except.ok uid =>
    match db.logs.filter (fun l => l.id == logId && l.userId == uid) with
    | [] => (Except.error ActionError.notFound, db)
    | _ :: _ =>
      let remaining := db.logs.filter (fun l => !(l.id == logId && l.userId == uid))
      (Except.ok (), { db with logs := remaining })

/-- The row built by `createVetVisit` (`const visit = {...}` in the source):
`visitDate` defaults to the clock reading when absent. -/
def newVetVisit (parseIso : String → DateVal) (uid : UserId)
    (inp : CreateVisitInput) (genId : EntId) (now : DateVal) : VetVisit :=
  { id := genId, petId := inp.petId, userId := uid,
    visitDate := dateOrNow parseIso inp.visitDate now,
    clinicName := inp.clinicName, reason := inp.reason,
    diagnosis := inp.diagnosis, treatment := inp.treatment,
    medications := inp.medications,
    followUpDate := parseDateInput parseIso inp.followUpDate,
    createdAt := now }

/-- `createVetVisit`: guard the target pet, insert with `visitDate`
defaulting to now. -/
def createVetVisit (parseIso : String → DateVal) (ctx : Option UserId)
    (inp : CreateVisitInput) (genId : EntId) (now : DateVal) (db : DB) :
    Except ActionError VetVisit × DB :=
  match requireUser ctx with
  | Except.error e => (Except.error e, db)
  | Except.ok uid =>
    match assertPetOwnership inp.petId uid db with
    | Except.error e => (Except.error e, db)
    | Except.ok _ =>
      let visit := newVetVisit parseIso uid inp genId now
      (Except.ok visit, { db with visits := db.visits ++ [visit] })

/-- The row transformer of `updateVetVisit`'s `set(updates)` clause — note:
no unconditional timestamp bump, and `createdAt` is never assigned. -/
def applyVisitUpdates (parseIso : String → DateVal) (inp : UpdateVisitInput)
    (v : VetVisit) : VetVisit :=
  { v with
    petId := ovr inp.petId v.petId
    visitDate := ovrDate parseIso inp.visitDate v.visitDate
    clinicName := ovrOpt inp.clinicName v.clinicName
    reason := ovrOpt inp.reason v.reason
    diagnosis := ovrOpt inp.diagnosis v.diagnosis
    treatment := ovrOpt inp.treatment v.treatment
    medications := ovrOpt inp.medications v.medications
    followUpDate := ovrDateOpt parseIso inp.followUpDate v.followUpDate }

/-- The SQL UPDATE of `updateVetVisit`. -/
def visitUpd (parseIso : String → DateVal) (inp : UpdateVisitInput)
    (uid : UserId) : VetVisit → VetVisit :=
  updWhere (fun w => w.id == inp.id && w.userId == uid)
    (applyVisitUpdates parseIso inp)

/-- `updateVetVisit`: inline existence/ownership check on the visit, then
guard `input.petId ?? visit.petId`, then a partial update of every matching
row (no clock is read anywhere in this handler). -/
def updateVetVisit (parseIso : String → DateVal) (ctx : Option UserId)
    (inp : UpdateVisitInput) (db : DB) : Except ActionError Unit × DB :=
  match requireUser ctx with
  | Except.error e => (Except.error e, db)
  | Except.ok uid =>
    match db.visits.filter (fun v => v.id == inp.id && v.userId == uid) with
    | [] => (Except.error ActionError.notFound, db)
    | v :: _ =>
      match assertPetOwnership (ovr inp.petId v.petId) uid db with
      | Except.error e => (Except.error e, db)
      | Except.ok _ =>
        (Except.ok (), { db with visits := db.visits.map (visitUpd parseIso inp uid) })

/-- `deleteVetVisit`: inline existence/ownership check, then delete every
matching row. -/
def deleteVetVisit (ctx : Option UserId) (visitId : EntId) (db : DB) :
    Except ActionError Unit × DB :=
  match requireUser ctx with
  | Except.error e => (Except.error e, db)
  | Except.ok uid =>
    match db.visits.filter (fun v => v.id == visitId && v.userId == uid) with
    | [] => (Except.error ActionError.notFound, db)
    | _ :: _ =>
      let remaining := db.visits.filter (fun v => !(v.id == visitId && v.userId == uid))
      (Except.ok (), { db with visits := remaining })

/-- `listVetVisits`: guard the target pet, then all visits for that pet owned
by the caller. -/
def listVetVisits (ctx : Option UserId) (petId : EntId) (db : DB) :
    Except ActionError (List VetVisit) × DB :=
  match requireUser ctx with
  | Except.error e => (Except.error e, db)
  | Except.ok uid =>
    match assertPetOwnership petId uid db with
    | Except.error e => (Except.error e, db)
    | Except.ok _ =>
      (Except.ok (db.visits.filter fun v => v.petId == petId && v.userId == uid), db)

/-! ## Concrete fixtures (used by witnesses and counterexamples) -/

/-- A concrete stand-in for ISO-8601 parsing. -/
def pIso0 : String → DateVal := fun s => s.length

/-- A concrete stand-in for `JSON.stringify` on a day list. -/
def sd0 : List String → String := fun l => String.intercalate "," l

/-- The empty stored state. -/
def dbEmpty : DB := { pets := [], routines := [], logs := [], visits := [] }

/-- A sample pet owned by user `u1`. -/
def petA : Pet :=
  { id := "p1", userId := "u1", name := "Bruno", species := some "dog",
    breed := none, gender := none, dateOfBirth := none, color := none,
    weightKg := none, notes := none, createdAt := 1, updatedAt := 1 }

/-- A second sample pet owned by user `u1`. -/
def petB : Pet :=
  { id := "p2", userId := "u1", name := "Mithra", species := some "cat",
    breed := none, gender := none, dateOfBirth := none, color := none,
    weightKg := none, notes := none, createdAt := 1, updatedAt := 1 }

/-- A sample routine for `petA`, owned by user `u1`. -/
def routineA : CareRoutine :=
  { id := "r1", petId := "p1", userId := "u1", name := "Morning feeding",
    description := none, frequency := some "daily", timeOfDayLocal := none,
    daysOfWeekJson := none, isActive := true, createdAt := 1, updatedAt := 1 }

/-- An already-archived routine for `petA`, owned by user `u1`. -/
def routineB : CareRoutine :=
  { id := "r2", petId := "p1", userId := "u1", name := "Evening walk",
    description := none, frequency := some "daily", timeOfDayLocal := none,
    daysOfWeekJson := none, isActive := false, createdAt := 1, updatedAt := 1 }

/-- A sample care log for `petA`, owned by user `u1`. -/
def logA : CareLog :=
  { id := "l1", petId := "p1", routineId := some "r1", userId := "u1",
    logDateTime := 2, status := some "done", notes := none, createdAt := 2 }

/-- A sample vet visit for `petA`, owned by user `u1`. -/
def visitA : VetVisit :=
  { id := "v1", petId := "p1", userId := "u1", visitDate := 3,
    clinicName := none, reason := some "check-up", diagnosis := none,
    treatment := none, medications := none, followUpDate := none,
    createdAt := 3 }

/-- A populated sample state owned by user `u1`. -/
def dbA : DB :=
  { pets := [petA, petB], routines := [routineA, routineB], logs := [logA],
    visits := [visitA] }

/-- `updatePet` input touching nothing but the target id. -/
def upInpEmpty : UpdatePetInput :=
  { id := "t9", name := none, species := none, breed := none, gender := none,
    dateOfBirth := none, color := none, weightKg := none, notes := none }

/-- `updatePet` input renaming `petA`. -/
def upInpName : UpdatePetInput :=
  { id := "p1", name := some "Rex", species := none, breed := none,
    gender := none, dateOfBirth := none, color := none, weightKg := none,
    notes := none }

/-- `createPetCareRoutine` input targeting a missing pet id. -/
def crInpBad : CreateRoutineInput :=
  { petId := "t9", name := "Morning feeding", description := none,
    frequency := none, timeOfDayLocal := none, daysOfWeek := none }

/-- `updatePetCareRoutine` input touching nothing but the target id. -/
def urInpEmpty : UpdateRoutineInput :=
  { id := "t9", petId := none, name := none, description := none,
    frequency := none, timeOfDayLocal := none, daysOfWeek := none,
    isActive := none }

/-- `updatePetCareRoutine` input renaming `routineA`. -/
def urInpName : UpdateRoutineInput :=
  { id := "r1", petId := none, name := some "Brunch", description := none,
    frequency := none, timeOfDayLocal := none, daysOfWeek := none,
    isActive := none }

/-- `createPetCareLog` input targeting a missing pet id. -/
def clInpBad : CreateLogInput :=
  { petId := "t9", routineId := none, logDateTime := none, status := none,
    notes := none }

/-- `createPetCareLog` input pairing `petB` with `petA`'s routine. -/
def clInpMismatch : CreateLogInput :=
  { petId := "p2", routineId := some "r1", logDateTime := none,
    status := some "done", notes := none }

/-- `createVetVisit` input targeting a missing pet id. -/
def cvInpBad : CreateVisitInput :=
  { petId := "t9", visitDate := none, clinicName := none, reason := none,
    diagnosis := none, treatment := none, medications := none,
    followUpDate := none }

/-- `createVetVisit` input for `petA` with no `visitDate`. -/
def cvInpA : CreateVisitInput :=
  { petId := "p1", visitDate := none, clinicName := some "VetCare",
    reason := none, diagnosis := none, treatment := none, medications := none,
    followUpDate := none }

/-- `updateVetVisit` input touching nothing but the target id. -/
def uvInpEmpty : UpdateVisitInput :=
  { id := "t9", petId := none, visitDate := none, clinicName := none,
    reason := none, diagnosis := none, treatment := none, medications := none,
    followUpDate := none }

/-- `updateVetVisit` input changing `visitA`'s clinic name. -/
def uvInpClinic : UpdateVisitInput :=
  { id := "v1", petId := none, visitDate := none, clinicName := some "Clinic2",
    reason := none, diagnosis := none, treatment := none, medications := none,
    followUpDate := none }

/-- A state where `routineA` survives its pet (`Pets` is empty): pet deletion
does not cascade, so such states are reachable. -/
def dbLogCx : DB := { pets := [], routines := [routineA], logs := [], visits := [] }

/-- A state with `petB` (id `p2`) and `routineA` (attached to pet `p1`). -/
def dbLogMismatch : DB :=
  { pets := [petB], routines := [routineA], logs := [], visits := [] }

/-- A state where `routineA` and `visitA` both reference pet `p1`, but the
`Pets` table is empty (their pet was deleted; deletion does not cascade). -/
def dbDangling : DB :=
  { pets := [], routines := [routineA], logs := [], visits := [visitA] }

/-- `updateVetVisit` input carrying only the (existing) target id `v1`. -/
def uvInpV1None : UpdateVisitInput :=
  { id := "v1", petId := none, visitDate := none, clinicName := none,
    reason := none, diagnosis := none, treatment := none, medications := none,
    followUpDate := none }

/-! ## General list lemmas -/

theorem filter_of_cond_comm {α : Type} (f : α → α) (p : α → Bool)
    (h : ∀ x, p (f x) = p x) :
    ∀ l : List α, (l.map f).filter p = (l.filter p).map f := by
  intro l
  induction l with
  | nil => rfl
  | cons a t ih =>
    by_cases hpa : p a = true
    · simp [List.filter_cons, h, hpa, ih]
    · simp only [Bool.not_eq_true] at hpa
      simp [List.filter_cons, h, hpa, ih]

theorem filter_eq_singleton_of_key {α : Type} (key : α → String) (p : α → Bool)
    (r : α) : ∀ l : List α, l.Pairwise (fun a b => key a ≠ key b) → r ∈ l →
    p r = true → (∀ x ∈ l, p x = true → key x = key r) → l.filter p = [r] := by
  intro l
  induction l with
  | nil => intro _ hr; cases hr
  | cons a t ih =>
    intro hp hr hpr hk
    rcases List.pairwise_cons.mp hp with ⟨ha, ht⟩
    rcases List.mem_cons.mp hr with rfl | hrt
    · have hnil : t.filter p = [] := by
        rw [List.filter_eq_nil_iff]
        intro x hx hpx
        exact ha x hx (hk x (List.mem_cons_of_mem _ hx) hpx).symm
      simp [List.filter_cons, hpr, hnil]
    · have hpa : p a = false := by
        cases hb : p a with
        | false => rfl
        | true =>
          exact absurd (hk a (List.mem_cons_self _ _) hb)
            (ha r hrt)
      simp only [List.filter_cons, hpa, Bool.false_eq_true, if_false]
      exact ih ht hrt hpr (fun x hx hpx => hk x (List.mem_cons_of_mem _ hx) hpx)

theorem filter_ne_nil_of_mem {α : Type} (p : α → Bool) (r : α) (l : List α)
    (hr : r ∈ l) (hpr : p r = true) : l.filter p ≠ [] := by
  intro hnil
  rw [List.filter_eq_nil_iff] at hnil
  exact hnil r hr hpr

/-! ## Emptiness predicates ("the target id does not exist in storage, or
exists only with a different userId") -/

/-- No `Pets` row has the given id together with the given userId. -/
def noPetFor (db : DB) (t : EntId) (u : UserId) : Prop :=
  ∀ p ∈ db.pets, ¬(p.id = t ∧ p.userId = u)

/-- No `PetCareRoutines` row has the given id together with the given userId. -/
def noRoutineFor (db : DB) (t : EntId) (u : UserId) : Prop :=
  ∀ r ∈ db.routines, ¬(r.id = t ∧ r.userId = u)

/-- No `PetCareLogs` row has the given id together with the given userId. -/
def noLogFor (db : DB) (t : EntId) (u : UserId) : Prop :=
  ∀ l ∈ db.logs, ¬(l.id = t ∧ l.userId = u)

/-- No `VetVisits` row has the given id together with the given userId. -/
def noVisitFor (db : DB) (t : EntId) (u : UserId) : Prop :=
  ∀ v ∈ db.visits, ¬(v.id = t ∧ v.userId = u)

/-! ## Guard reduction lemmas -/

theorem petFilter_eq_nil {db : DB} {t : EntId} {u : UserId}
    (h : noPetFor db t u) :
    db.pets.filter (fun p => p.id == t && p.userId == u) = [] := by
  rw [List.filter_eq_nil_iff]
  intro a ha
  simpa [Bool.and_eq_true, beq_iff_eq] using h a ha

theorem assertPet_notFound {db : DB} {t : EntId} {u : UserId}
    (h : noPetFor db t u) :
    assertPetOwnership t u db = Except.error ActionError.notFound := by
  unfold assertPetOwnership
  rw [petFilter_eq_nil h]

theorem routineFilter_eq_nil {db : DB} {t : EntId} {u : UserId}
    (h : noRoutineFor db t u) :
    db.routines.filter (fun r => r.id == t && r.userId == u) = [] := by
  rw [List.filter_eq_nil_iff]
  intro a ha
  simpa [Bool.and_eq_true, beq_iff_eq] using h a ha

theorem assertRoutine_notFound {db : DB} {t : EntId} {u : UserId}
    (h : noRoutineFor db t u) :
    assertRoutineOwnership t u db = Except.error ActionError.notFound := by
  unfold assertRoutineOwnership
  rw [routineFilter_eq_nil h]

theorem logFilter_eq_nil {db : DB} {t : EntId} {u : UserId}
    (h : noLogFor db t u) :
    db.logs.filter (fun l => l.id == t && l.userId == u) = [] := by
  rw [List.filter_eq_nil_iff]
  intro a ha
  simpa [Bool.and_eq_true, beq_iff_eq] using h a ha

theorem visitFilter_eq_nil {db : DB} {t : EntId} {u : UserId}
    (h : noVisitFor db t u) :
    db.visits.filter (fun v => v.id == t && v.userId == u) = [] := by
  rw [List.filter_eq_nil_iff]
  intro a ha
  simpa [Bool.and_eq_true, beq_iff_eq] using h a ha

theorem assertPet_ok {db : DB} {t : EntId} {u : UserId} (p : Pet)
    (hp : p ∈ db.pets) (hid : p.id = t) (huid : p.userId = u) :
    ∃ q : Pet, assertPetOwnership t u db = Except.ok q := by
  unfold assertPetOwnership
  cases hf : db.pets.filter (fun x => x.id == t && x.userId == u) with
  | nil =>
    exact absurd hf (filter_ne_nil_of_mem _ p _ hp (by simp [hid, huid]))
  | cons q _ => exact ⟨q, rfl⟩

theorem assertRoutine_ok {db : DB} {t : EntId} {u : UserId} (r : CareRoutine)
    (hr : r ∈ db.routines) (hid : r.id = t) (huid : r.userId = u) :
    ∃ q : CareRoutine, assertRoutineOwnership t u db = Except.ok q := by
  unfold assertRoutineOwnership
  cases hf : db.routines.filter (fun x => x.id == t && x.userId == u) with
  | nil =>
    exact absurd hf (filter_ne_nil_of_mem _ r _ hr (by simp [hid, huid]))
  | cons q _ => exact ⟨q, rfl⟩

theorem assertRoutine_ok_unique {db : DB} {t : EntId} {u : UserId}
    (r : CareRoutine)
    (hu : db.routines.Pairwise (fun a b => a.id ≠ b.id))
    (hr : r ∈ db.routines) (hid : r.id = t) (huid : r.userId = u) :
    assertRoutineOwnership t u db = Except.ok r := by
  unfold assertRoutineOwnership
  rw [filter_eq_singleton_of_key (fun x => x.id) _ r db.routines hu hr
    (by simp [hid, huid])
    (fun x _ hx => by
      simp only [Bool.and_eq_true, beq_iff_eq] at hx
      show x.id = r.id
      rw [hx.1, hid])]

/-! ## Update-combinator lemmas -/

theorem ovr_idem {α : Type} (new : Option α) (old : α) :
    ovr new (ovr new old) = ovr new old := by
  cases new <;> rfl

theorem ovrOpt_idem {α : Type} (new : Option α) (old : Option α) :
    ovrOpt new (ovrOpt new old) = ovrOpt new old := by
  cases new <;> rfl

theorem ovrDate_idem (parseIso : String → DateVal) (new : Option DateInput)
    (old : DateVal) :
    ovrDate parseIso new (ovrDate parseIso new old) = ovrDate parseIso new old := by
  unfold ovrDate
  cases parseDateInput parseIso new <;> rfl

theorem ovrDateOpt_idem (parseIso : String → DateVal) (new : Option DateInput)
    (old : Option DateVal) :
    ovrDateOpt parseIso new (ovrDateOpt parseIso new old) =
      ovrDateOpt parseIso new old := by
  unfold ovrDateOpt
  cases parseDateInput parseIso new <;> rfl

theorem ovr_none {α : Type} (old : α) : ovr none old = old := rfl

theorem ovrOpt_none {α : Type} (old : Option α) : ovrOpt none old = old := rfl

theorem applyPetUpdates_id (parseIso : String → DateVal) (inp : UpdatePetInput)
    (now : DateVal) (p : Pet) : (applyPetUpdates parseIso inp now p).id = p.id := rfl

theorem applyPetUpdates_userId (parseIso : String → DateVal)
    (inp : UpdatePetInput) (now : DateVal) (p : Pet) :
    (applyPetUpdates parseIso inp now p).userId = p.userId := rfl

theorem applyPetUpdates_idem (parseIso : String → DateVal)
    (inp : UpdatePetInput) (now : DateVal) (p : Pet) :
    applyPetUpdates parseIso inp now (applyPetUpdates parseIso inp now p) =
      applyPetUpdates parseIso inp now p := by
  simp [applyPetUpdates, ovr_idem, ovrOpt_idem, ovrDateOpt_idem]

theorem applyRoutineUpdates_id (stringifyDays : List String → String)
    (inp : UpdateRoutineInput) (now : DateVal) (r : CareRoutine) :
    (applyRoutineUpdates stringifyDays inp now r).id = r.id := rfl

theorem applyRoutineUpdates_userId (stringifyDays : List String → String)
    (inp : UpdateRoutineInput) (now : DateVal) (r : CareRoutine) :
    (applyRoutineUpdates stringifyDays inp now r).userId = r.userId := rfl

theorem applyRoutineUpdates_idem (stringifyDays : List String → String)
    (inp : UpdateRoutineInput) (now : DateVal) (r : CareRoutine) :
    applyRoutineUpdates stringifyDays inp now
        (applyRoutineUpdates stringifyDays inp now r) =
      applyRoutineUpdates stringifyDays inp now r := by
  simp [applyRoutineUpdates, ovr_idem, ovrOpt_idem]

theorem applyVisitUpdates_id (parseIso : String → DateVal)
    (inp : UpdateVisitInput) (v : VetVisit) :
    (applyVisitUpdates parseIso inp v).id = v.id := rfl

theorem applyVisitUpdates_userId (parseIso : String → DateVal)
    (inp : UpdateVisitInput) (v : VetVisit) :
    (applyVisitUpdates parseIso inp v).userId = v.userId := rfl

theorem applyVisitUpdates_createdAt (parseIso : String → DateVal)
    (inp : UpdateVisitInput) (v : VetVisit) :
    (applyVisitUpdates parseIso inp v).createdAt = v.createdAt := rfl

theorem applyVisitUpdates_idem (parseIso : String → DateVal)
    (inp : UpdateVisitInput) (v : VetVisit) :
    applyVisitUpdates parseIso inp (applyVisitUpdates parseIso inp v) =
      applyVisitUpdates parseIso inp v := by
  simp [applyVisitUpdates, ovr_idem, ovrOpt_idem, ovrDate_idem, ovrDateOpt_idem]

/-! ## Claims -/

/-- C6: for every operation in the catalogue, when no resolved caller
identity is present in the request context the operation fails with
`UNAUTHORIZED` and the stored state is unchanged. -/
theorem absent_identity_unauthorized_all_ops
    (parseIso : String → DateVal) (stringifyDays : List String → String)
    (inpP : CreatePetInput) (inpUP : UpdatePetInput)
    (inpR : CreateRoutineInput) (inpUR : UpdateRoutineInput)
    (inpLR : Option ListRoutinesInput) (inpCL : CreateLogInput)
    (inpV : CreateVisitInput) (inpUV : UpdateVisitInput)
    (t genId : EntId) (now : DateVal) (db : DB) :
    createPet parseIso none inpP genId now db
      = (Except.error ActionError.unauthorized, db) ∧
    updatePet parseIso none inpUP now db
      = (Except.error ActionError.unauthorized, db) ∧
    deletePet none t db = (Except.error ActionError.unauthorized, db) ∧
    listPets none db = (Except.error ActionError.unauthorized, db) ∧
    createPetCareRoutine stringifyDays none inpR genId now db
      = (Except.error ActionError.unauthorized, db) ∧
    updatePetCareRoutine stringifyDays none inpUR now db
      = (Except.error ActionError.unauthorized, db) ∧
    archivePetCareRoutine none t now db
      = (Except.error ActionError.unauthorized, db) ∧
    listPetCareRoutines none inpLR db
      = (Except.error ActionError.unauthorized, db) ∧
    createPetCareLog parseIso none inpCL genId now db
      = (Except.error ActionError.unauthorized, db) ∧
    listPetCareLogs none t db = (Except.error ActionError.unauthorized, db) ∧
    deletePetCareLog none t db = (Except.error ActionError.unauthorized, db) ∧
    createVetVisit parseIso none inpV genId now db
      = (Except.error ActionError.unauthorized, db) ∧
    updateVetVisit parseIso none inpUV db
      = (Except.error ActionError.unauthorized, db) ∧
    deleteVetVisit none t db = (Except.error ActionError.unauthorized, db) ∧
    listVetVisits none t db = (Except.error ActionError.unauthorized, db) :=
  ⟨rfl, rfl, rfl, rfl, rfl, rfl, rfl, rfl, rfl, rfl, rfl, rfl, rfl, rfl, rfl⟩

/-- C1: for every entity kind and every mutating or detail-fetching
operation, a target id that does not exist in storage with the caller's
userId (nonexistent, or owned by a different user) makes the operation fail
with `NOT_FOUND`, leaving the stored state unchanged. -/
theorem bad_target_notFound_no_mutation
    (parseIso : String → DateVal) (stringifyDays : List String → String)
    (uid : UserId) (t genId : EntId) (now : DateVal) (db : DB)
    (inpUP : UpdatePetInput) (inpR : CreateRoutineInput)
    (inpUR : UpdateRoutineInput) (inpCL : CreateLogInput)
    (inpV : CreateVisitInput) (inpUV : UpdateVisitInput)
    (hUP : inpUP.id = t) (hR : inpR.petId = t) (hUR : inpUR.id = t)
    (hCL : inpCL.petId = t) (hV : inpV.petId = t) (hUV : inpUV.id = t)
    (hNoPet : noPetFor db t uid) (hNoRoutine : noRoutineFor db t uid)
    (hNoLog : noLogFor db t uid) (hNoVisit : noVisitFor db t uid) :
    updatePet parseIso (some uid) inpUP now db
      = (Except.error ActionError.notFound, db) ∧
    deletePet (some uid) t db = (Except.error ActionError.notFound, db) ∧
    createPetCareRoutine stringifyDays (some uid) inpR genId now db
      = (Except.error ActionError.notFound, db) ∧
    updatePetCareRoutine stringifyDays (some uid) inpUR now db
      = (Except.error ActionError.notFound, db) ∧
    archivePetCareRoutine (some uid) t now db
      = (Except.error ActionError.notFound, db) ∧
    createPetCareLog parseIso (some uid) inpCL genId now db
      = (Except.error ActionError.notFound, db) ∧
    listPetCareLogs (some uid) t db = (Except.error ActionError.notFound, db) ∧
    deletePetCareLog (some uid) t db = (Except.error ActionError.notFound, db) ∧
    createVetVisit parseIso (some uid) inpV genId now db
      = (Except.error ActionError.notFound, db) ∧
    updateVetVisit parseIso (some uid) inpUV db
      = (Except.error ActionError.notFound, db) ∧
    deleteVetVisit (some uid) t db = (Except.error ActionError.notFound, db) ∧
    listVetVisits (some uid) t db = (Except.error ActionError.notFound, db) := by
  have hPet : assertPetOwnership t uid db = Except.error ActionError.notFound :=
    assertPet_notFound hNoPet
  have hRoutine : assertRoutineOwnership t uid db
      = Except.error ActionError.notFound := assertRoutine_notFound hNoRoutine
  refine ⟨?_, ?_, ?_, ?_, ?_, ?_, ?_, ?_, ?_, ?_, ?_, ?_⟩
  · simp [updatePet, requireUser, hUP, hPet]
  · simp [deletePet, requireUser, hPet]
  · simp [createPetCareRoutine, requireUser, hR, hPet]
  · simp [updatePetCareRoutine, requireUser, hUR, hRoutine]
  · simp [archivePetCareRoutine, requireUser, hRoutine]
  · simp [createPetCareLog, requireUser, hCL, hPet]
  · simp [listPetCareLogs, requireUser, hPet]
  · simp [deletePetCareLog, requireUser, logFilter_eq_nil hNoLog]
  · simp [createVetVisit, requireUser, hV, hPet]
  · simp [updateVetVisit, requireUser, hUV, visitFilter_eq_nil hNoVisit]
  · simp [deleteVetVisit, requireUser, visitFilter_eq_nil hNoVisit]
  · simp [listVetVisits, requireUser, hPet]

/-- Witness for C1: concrete evaluation on a populated state with a target id
(`t9`) that matches no stored row. -/
theorem bad_target_notFound_no_mutation_witness :
    updatePet pIso0 (some "u1") upInpEmpty 5 dbA
      = (Except.error ActionError.notFound, dbA) ∧
    deletePet (some "u1") "t9" dbA = (Except.error ActionError.notFound, dbA) ∧
    createPetCareRoutine sd0 (some "u1") crInpBad "g1" 5 dbA
      = (Except.error ActionError.notFound, dbA) ∧
    updatePetCareRoutine sd0 (some "u1") urInpEmpty 5 dbA
      = (Except.error ActionError.notFound, dbA) ∧
    archivePetCareRoutine (some "u1") "t9" 5 dbA
      = (Except.error ActionError.notFound, dbA) ∧
    createPetCareLog pIso0 (some "u1") clInpBad "g1" 5 dbA
      = (Except.error ActionError.notFound, dbA) ∧
    listPetCareLogs (some "u1") "t9" dbA
      = (Except.error ActionError.notFound, dbA) ∧
    deletePetCareLog (some "u1") "t9" dbA
      = (Except.error ActionError.notFound, dbA) ∧
    createVetVisit pIso0 (some "u1") cvInpBad "g1" 5 dbA
      = (Except.error ActionError.notFound, dbA) ∧
    updateVetVisit pIso0 (some "u1") uvInpEmpty dbA
      = (Except.error ActionError.notFound, dbA) ∧
    deleteVetVisit (some "u1") "t9" dbA
      = (Except.error ActionError.notFound, dbA) ∧
    listVetVisits (some "u1") "t9" dbA
      = (Except.error ActionError.notFound, dbA) :=
  bad_target_notFound_no_mutation pIso0 sd0 "u1" "t9" "g1" 5 dbA
    upInpEmpty crInpBad urInpEmpty clInpBad cvInpBad uvInpEmpty
    rfl rfl rfl rfl rfl rfl
    (by unfold noPetFor; decide) (by unfold noRoutineFor; decide)
    (by unfold noLogFor; decide) (by unfold noVisitFor; decide)

/-- Counterexample for C2 as stated: the caller (`u1`) supplies
`petId = "p2"` and `routineId = "r1"`; the routine is owned by the caller and
its stored `petId` (`"p1"`) differs from the supplied one, yet the handler
fails `NOT_FOUND` (the supplied pet is not owned), not `FORBIDDEN`. -/
theorem createPetCareLog_crossPet_claim_cx :
    routineA ∈ dbLogCx.routines ∧ routineA.userId = "u1" ∧
    clInpMismatch.routineId = some routineA.id ∧
    routineA.petId ≠ clInpMismatch.petId ∧
    createPetCareLog pIso0 (some "u1") clInpMismatch "g1" 5 dbLogCx
      = (Except.error ActionError.notFound, dbLogCx) ∧
    ActionError.notFound ≠ ActionError.forbidden := by
  refine ⟨?_, rfl, rfl, ?_, rfl, ?_⟩ <;> decide

/-- C2 (amended): when the caller additionally owns the supplied `petId`
(otherwise the earlier ownership guard already fails `NOT_FOUND`), a supplied
routine that is owned by the caller but attached to a different pet makes
`createPetCareLog` fail `FORBIDDEN` with the stored state unchanged. Routine
ids are primary keys, hence pairwise distinct, and system-generated routine
ids are nonempty. -/
theorem createPetCareLog_crossPet_forbidden
    (parseIso : String → DateVal) (uid : UserId) (genId : EntId)
    (now : DateVal) (db : DB) (inp : CreateLogInput)
    (huniq : db.routines.Pairwise (fun a b => a.id ≠ b.id))
    (p : Pet) (hp : p ∈ db.pets) (hpid : p.id = inp.petId)
    (hpuid : p.userId = uid)
    (r : CareRoutine) (hr : r ∈ db.routines) (hrid : inp.routineId = some r.id)
    (hrne : r.id ≠ "") (hruid : r.userId = uid)
    (hmis : r.petId ≠ inp.petId) :
    createPetCareLog parseIso (some uid) inp genId now db
      = (Except.error ActionError.forbidden, db) := by
  obtain ⟨q, hq⟩ := assertPet_ok p hp hpid hpuid
  have h1 : (r.id == "") = false := by simp [hrne]
  have h2 : (r.petId == inp.petId) = false := by simp [hmis]
  have h3 : assertRoutineOwnership r.id uid db = Except.ok r :=
    assertRoutine_ok_unique r huniq hr rfl hruid
  simp [createPetCareLog, requireUser, hq, hrid, h1, h2, h3]

/-- Witness for the amended C2: `u1` owns pet `p2` and routine `r1` (attached
to pet `p1`); logging against `p2` with routine `r1` fails `FORBIDDEN` and
writes nothing. -/
theorem createPetCareLog_crossPet_forbidden_witness :
    createPetCareLog pIso0 (some "u1") clInpMismatch "g1" 5 dbLogMismatch
      = (Except.error ActionError.forbidden, dbLogMismatch) :=
  createPetCareLog_crossPet_forbidden pIso0 "u1" "g1" 5 dbLogMismatch
    clInpMismatch (by unfold dbLogMismatch; simp)
    petB (by unfold dbLogMismatch; simp) rfl rfl
    routineA (by unfold dbLogMismatch; simp) rfl (by decide) rfl (by decide)

theorem map_guard_idem {α : Type} (c : α → Bool) (f : α → α)
    (hc : ∀ x, c (f x) = c x) (hf : ∀ x, f (f x) = f x) (l : List α) :
    ((l.map fun x => if c x then f x else x).map fun x => if c x then f x else x)
      = l.map fun x => if c x then f x else x := by
  rw [List.map_map]
  apply List.map_congr_left
  intro x _
  by_cases hx : c x = true
  · simp [Function.comp, hx, hc, hf]
  · simp only [Bool.not_eq_true] at hx
    simp [Function.comp, hx]

theorem updWhere_pos {α : Type} (c : α → Bool) (f : α → α) (x : α)
    (h : c x = true) : updWhere c f x = f x := by
  simp [updWhere, h]

theorem updWhere_neg {α : Type} (c : α → Bool) (f : α → α) (x : α)
    (h : c x = false) : updWhere c f x = x := by
  simp [updWhere, h]

theorem map_updWhere_idem {α : Type} (c : α → Bool) (f : α → α)
    (hc : ∀ x, c (f x) = c x) (hf : ∀ x, f (f x) = f x) (l : List α) :
    (l.map (updWhere c f)).map (updWhere c f) = l.map (updWhere c f) := by
  unfold updWhere
  exact map_guard_idem c f hc hf l

theorem filter_map_updWhere {α : Type} (c2 c : α → Bool) (f : α → α)
    (hcomm : ∀ x, c2 (updWhere c f x) = c2 x) (l : List α) :
    (l.map (updWhere c f)).filter c2 = (l.filter c2).map (updWhere c f) :=
  filter_of_cond_comm _ _ hcomm l

theorem archiveUpd_pos (rid : EntId) (uid : UserId) (now : DateVal)
    (x : CareRoutine) (h : (x.id == rid && x.userId == uid) = true) :
    archiveUpd rid uid now x = { x with isActive := false, updatedAt := now } :=
  updWhere_pos _ _ x h

theorem archiveUpd_neg (rid : EntId) (uid : UserId) (now : DateVal)
    (x : CareRoutine) (h : (x.id == rid && x.userId == uid) = false) :
    archiveUpd rid uid now x = x :=
  updWhere_neg _ _ x h

theorem archive_ok (uid : UserId) (rid : EntId) (now : DateVal) (db : DB)
    (q : CareRoutine) (hq : assertRoutineOwnership rid uid db = Except.ok q) :
    archivePetCareRoutine (some uid) rid now db
      = (Except.ok (), { db with routines := db.routines.map (archiveUpd rid uid now) }) := by
  unfold archivePetCareRoutine
  simp only [requireUser]
  rw [hq]

/-- C5: for every routine owned by the caller, `archivePetCareRoutine`
succeeds, leaves the routine stored with `isActive = false` (also when it was
already archived), never removes the row, and is idempotent: archiving again
returns success and changes nothing further. -/
theorem archiveRoutine_idem_soft_delete
    (uid : UserId) (rid : EntId) (now : DateVal) (db : DB)
    (r : CareRoutine) (hr : r ∈ db.routines) (hid : r.id = rid)
    (huid : r.userId = uid) :
    (archivePetCareRoutine (some uid) rid now db).1 = Except.ok () ∧
    (archivePetCareRoutine (some uid) rid now db).2.routines.length
      = db.routines.length ∧
    (∀ s ∈ (archivePetCareRoutine (some uid) rid now db).2.routines,
      s.id = rid → s.userId = uid → s.isActive = false) ∧
    (∃ s ∈ (archivePetCareRoutine (some uid) rid now db).2.routines,
      s.id = rid ∧ s.userId = uid ∧ s.isActive = false) ∧
    archivePetCareRoutine (some uid) rid now
        ((archivePetCareRoutine (some uid) rid now db).2)
      = (Except.ok (), (archivePetCareRoutine (some uid) rid now db).2) := by
  obtain ⟨q, hq⟩ := assertRoutine_ok r hr hid huid
  have hres := archive_ok uid rid now db q hq
  have hcr : (r.id == rid && r.userId == uid) = true := by simp [hid, huid]
  refine ⟨by rw [hres], by rw [hres]; simp, ?_, ?_, ?_⟩
  · rw [hres]
    intro s hs hsid hsuid
    simp only [List.mem_map] at hs
    obtain ⟨x, hx, rfl⟩ := hs
    by_cases hcx : (x.id == rid && x.userId == uid) = true
    · rw [archiveUpd_pos rid uid now x hcx]
    · simp only [Bool.not_eq_true] at hcx
      rw [archiveUpd_neg rid uid now x hcx] at hsid hsuid
      exfalso
      have hct : (x.id == rid && x.userId == uid) = true := by simp [hsid, hsuid]
      rw [hct] at hcx
      cases hcx
  · rw [hres]
    refine ⟨archiveUpd rid uid now r, List.mem_map_of_mem _ hr, ?_⟩
    rw [archiveUpd_pos rid uid now r hcr]
    exact ⟨hid, huid, rfl⟩
  · rw [hres]
    have hmem2 : archiveUpd rid uid now r
        ∈ ({ db with routines := db.routines.map (archiveUpd rid uid now) } : DB).routines :=
      List.mem_map_of_mem _ hr
    have hid2 : (archiveUpd rid uid now r).id = rid := by
      rw [archiveUpd_pos rid uid now r hcr]
      exact hid
    have huid2 : (archiveUpd rid uid now r).userId = uid := by
      rw [archiveUpd_pos rid uid now r hcr]
      exact huid
    obtain ⟨q2, hq2⟩ := assertRoutine_ok _ hmem2 hid2 huid2
    rw [archive_ok uid rid now _ q2 hq2]
    have hmap : ((db.routines.map (archiveUpd rid uid now)).map (archiveUpd rid uid now))
        = db.routines.map (archiveUpd rid uid now) :=
      map_updWhere_idem (fun r : CareRoutine => r.id == rid && r.userId == uid)
        (fun r => { r with isActive := false, updatedAt := now })
        (fun _ => rfl) (fun _ => rfl) db.routines
    simp only [hmap]

/-- Witness for C5: archiving the already-archived routine `r2` succeeds,
keeps the row with `isActive = false`, and is idempotent. -/
theorem archiveRoutine_idem_soft_delete_witness :
    (archivePetCareRoutine (some "u1") "r2" 7 dbA).1 = Except.ok () ∧
    (archivePetCareRoutine (some "u1") "r2" 7 dbA).2.routines.length
      = dbA.routines.length ∧
    (∀ s ∈ (archivePetCareRoutine (some "u1") "r2" 7 dbA).2.routines,
      s.id = "r2" → s.userId = "u1" → s.isActive = false) ∧
    (∃ s ∈ (archivePetCareRoutine (some "u1") "r2" 7 dbA).2.routines,
      s.id = "r2" ∧ s.userId = "u1" ∧ s.isActive = false) ∧
    archivePetCareRoutine (some "u1") "r2" 7
        ((archivePetCareRoutine (some "u1") "r2" 7 dbA).2)
      = (Except.ok (), (archivePetCareRoutine (some "u1") "r2" 7 dbA).2) :=
  archiveRoutine_idem_soft_delete "u1" "r2" 7 dbA routineB
    (by unfold dbA; simp) rfl rfl

/-- C4: `listPetCareRoutines` with `includeInactive` false or absent (its
declared default) returns no routine whose `isActive` is false; with
`includeInactive = true` every routine owned by the caller that matches the
optional petId filter is returned, regardless of `isActive`. -/
theorem listRoutines_includeInactive_contract (uid : UserId) (db : DB) :
    (∀ (inp : Option ListRoutinesInput) (l : List CareRoutine),
      (inp = none ∨ ∃ i : ListRoutinesInput, inp = some i ∧ i.includeInactive = false) →
      (listPetCareRoutines (some uid) inp db).1 = Except.ok l →
      ∀ r ∈ l, r.isActive = true) ∧
    (∀ (i : ListRoutinesInput) (l : List CareRoutine),
      i.includeInactive = true →
      (listPetCareRoutines (some uid) (some i) db).1 = Except.ok l →
      ∀ r ∈ db.routines, r.userId = uid →
        (∀ p, i.petId = some p → r.petId = p) → r ∈ l) := by
  constructor
  · intro inp l hcase hres r hrl
    simp only [listPetCareRoutines, requireUser, Except.ok.injEq] at hres
    subst hres
    have hcond := (List.mem_filter.mp hrl).2
    rw [Bool.and_eq_true, Bool.and_eq_true] at hcond
    rcases hcase with rfl | ⟨i, rfl, hinc⟩
    · exact hcond.2
    · simpa [hinc] using hcond.2
  · intro i l hinc hres r hrdb hruid hpet
    simp only [listPetCareRoutines, requireUser, Except.ok.injEq] at hres
    subst hres
    apply List.mem_filter.mpr
    refine ⟨hrdb, ?_⟩
    rw [Bool.and_eq_true, Bool.and_eq_true]
    refine ⟨⟨by simp [hruid], ?_⟩, by simp [hinc]⟩
    cases hp : i.petId with
    | none => simp
    | some p =>
      by_cases hpe : p = ""
      · simp [hpe]
      · simp [hpe, hpet p hp]

/-- Witness for C4: on the concrete state `dbA`, the default call returns
only the active routine, and with `includeInactive = true` the archived
routine `r2` (matching pet filter `p1`) is returned. -/
theorem listRoutines_includeInactive_contract_witness :
    (∀ r ∈ [routineA], r.isActive = true) ∧
    routineB ∈ [routineA, routineB] :=
  ⟨(listRoutines_includeInactive_contract "u1" dbA).1 none [routineA]
      (Or.inl rfl) rfl,
    (listRoutines_includeInactive_contract "u1" dbA).2
      { petId := some "p1", includeInactive := true } [routineA, routineB]
      rfl rfl routineB (by unfold dbA; simp) rfl
      (fun p hp => by cases hp; rfl)⟩

theorem visitFilter_singleton {db : DB} {t : EntId} {u : UserId} (v : VetVisit)
    (hu : db.visits.Pairwise (fun a b => a.id ≠ b.id)) (hv : v ∈ db.visits)
    (hid : v.id = t) (huid : v.userId = u) :
    db.visits.filter (fun x => x.id == t && x.userId == u) = [v] := by
  apply filter_eq_singleton_of_key (fun x => x.id) _ v _ hu hv
    (by simp [hid, huid])
  intro x hx hpx
  simp only [Bool.and_eq_true, beq_iff_eq] at hpx
  show x.id = v.id
  rw [hpx.1, hid]

/-- C10: `updatePetCareRoutine` and `updateVetVisit` re-validate ownership of
the entity's current pet even when `petId` is absent from the input: when the
stored `petId` references no pet owned by the caller (e.g. the pet was
deleted), the update fails `NOT_FOUND` and changes nothing. -/
theorem dangling_pet_reference_update_notFound
    (parseIso : String → DateVal) (stringifyDays : List String → String)
    (uid : UserId) (now : DateVal) (db : DB) :
    (∀ (inp : UpdateRoutineInput) (r : CareRoutine),
      db.routines.Pairwise (fun a b => a.id ≠ b.id) →
      r ∈ db.routines → r.id = inp.id → r.userId = uid →
      inp.petId = none → noPetFor db r.petId uid →
      updatePetCareRoutine stringifyDays (some uid) inp now db
        = (Except.error ActionError.notFound, db)) ∧
    (∀ (inp : UpdateVisitInput) (v : VetVisit),
      db.visits.Pairwise (fun a b => a.id ≠ b.id) →
      v ∈ db.visits → v.id = inp.id → v.userId = uid →
      inp.petId = none → noPetFor db v.petId uid →
      updateVetVisit parseIso (some uid) inp db
        = (Except.error ActionError.notFound, db)) := by
  constructor
  · intro inp r huniq hr hid huid hnone hnp
    have h1 : assertRoutineOwnership inp.id uid db = Except.ok r :=
      assertRoutine_ok_unique r huniq hr hid huid
    have h2 : assertPetOwnership (ovr inp.petId r.petId) uid db
        = Except.error ActionError.notFound := by
      rw [hnone]
      exact assertPet_notFound hnp
    simp [updatePetCareRoutine, requireUser, h1, h2]
  · intro inp v huniq hv hid huid hnone hnp
    have h1 := visitFilter_singleton v huniq hv hid huid
    have h2 : assertPetOwnership (ovr inp.petId v.petId) uid db
        = Except.error ActionError.notFound := by
      rw [hnone]
      exact assertPet_notFound hnp
    simp [updateVetVisit, requireUser, h1, h2]

/-- Witness for C10: on a state where pet `p1` was removed, updating its
surviving routine `r1` (renaming it, no `petId` supplied) and its surviving
visit `v1` (changing the clinic, no `petId` supplied) both fail `NOT_FOUND`
and change nothing. -/
theorem dangling_pet_reference_update_notFound_witness :
    updatePetCareRoutine sd0 (some "u1") urInpName 5 dbDangling
      = (Except.error ActionError.notFound, dbDangling) ∧
    updateVetVisit pIso0 (some "u1") uvInpClinic dbDangling
      = (Except.error ActionError.notFound, dbDangling) :=
  ⟨(dangling_pet_reference_update_notFound pIso0 sd0 "u1" 5 dbDangling).1
      urInpName routineA (by unfold dbDangling; simp)
      (by unfold dbDangling; simp) rfl rfl rfl
      (by unfold noPetFor; decide),
    (dangling_pet_reference_update_notFound pIso0 sd0 "u1" 5 dbDangling).2
      uvInpClinic visitA (by unfold dbDangling; simp)
      (by unfold dbDangling; simp) rfl rfl rfl
      (by unfold noPetFor; decide)⟩

/-- C7: CareLog rows are immutable after creation. No operation updates a
stored CareLog: thirteen of the fifteen operations leave the `PetCareLogs`
table exactly as it was, `createPetCareLog` at most appends one fresh row,
and `deletePetCareLog` removes exactly the rows matching the target id and
the caller, leaving every other row unchanged. -/
theorem careLogs_append_delete_only
    (parseIso : String → DateVal) (stringifyDays : List String → String)
    (ctx : Option UserId) (uid : UserId)
    (inpP : CreatePetInput) (inpUP : UpdatePetInput)
    (inpR : CreateRoutineInput) (inpUR : UpdateRoutineInput)
    (inpLR : Option ListRoutinesInput) (inpCL : CreateLogInput)
    (inpV : CreateVisitInput) (inpUV : UpdateVisitInput)
    (t genId : EntId) (now : DateVal) (db : DB) :
    (createPet parseIso ctx inpP genId now db).2.logs = db.logs ∧
    (updatePet parseIso ctx inpUP now db).2.logs = db.logs ∧
    (deletePet ctx t db).2.logs = db.logs ∧
    (listPets ctx db).2.logs = db.logs ∧
    (createPetCareRoutine stringifyDays ctx inpR genId now db).2.logs = db.logs ∧
    (updatePetCareRoutine stringifyDays ctx inpUR now db).2.logs = db.logs ∧
    (archivePetCareRoutine ctx t now db).2.logs = db.logs ∧
    (listPetCareRoutines ctx inpLR db).2.logs = db.logs ∧
    (listPetCareLogs ctx t db).2.logs = db.logs ∧
    (createVetVisit parseIso ctx inpV genId now db).2.logs = db.logs ∧
    (updateVetVisit parseIso ctx inpUV db).2.logs = db.logs ∧
    (deleteVetVisit ctx t db).2.logs = db.logs ∧
    (listVetVisits ctx t db).2.logs = db.logs ∧
    ((createPetCareLog parseIso ctx inpCL genId now db).2.logs = db.logs ∨
      ∃ x, (createPetCareLog parseIso ctx inpCL genId now db).2.logs
        = db.logs ++ [x]) ∧
    (deletePetCareLog none t db).2.logs = db.logs ∧
    (deletePetCareLog (some uid) t db).2.logs
      = db.logs.filter (fun l => !(l.id == t && l.userId == uid)) := by
  refine ⟨?_, ?_, ?_, ?_, ?_, ?_, ?_, ?_, ?_, ?_, ?_, ?_, ?_, ?_, rfl, ?_⟩
  · simp only [createPet]
    split <;> rfl
  · simp only [updatePet]
    split
    · rfl
    · split <;> rfl
  · simp only [deletePet]
    split
    · rfl
    · split <;> rfl
  · simp only [listPets]
    split <;> rfl
  · simp only [createPetCareRoutine]
    split
    · rfl
    · split <;> rfl
  · simp only [updatePetCareRoutine]
    split
    · rfl
    · split
      · rfl
      · split <;> rfl
  · simp only [archivePetCareRoutine]
    split
    · rfl
    · split <;> rfl
  · simp only [listPetCareRoutines]
    split <;> rfl
  · simp only [listPetCareLogs]
    split
    · rfl
    · split <;> rfl
  · simp only [createVetVisit]
    split
    · rfl
    · split <;> rfl
  · simp only [updateVetVisit]
    split
    · rfl
    · split
      · rfl
      · split <;> rfl
  · simp only [deleteVetVisit]
    split
    · rfl
    · split <;> rfl
  · simp only [listVetVisits]
    split
    · rfl
    · split <;> rfl
  · simp only [createPetCareLog]
    split
    · exact Or.inl rfl
    · split
      · exact Or.inl rfl
      · split
        · exact Or.inl rfl
        · exact Or.inr ⟨_, rfl⟩
  · simp only [deletePetCareLog, requireUser]
    cases hf : db.logs.filter (fun l => l.id == t && l.userId == uid) with
    | nil =>
      have hall := List.filter_eq_nil_iff.mp hf
      have hkeep : db.logs.filter (fun l => !(l.id == t && l.userId == uid))
          = db.logs := by
        rw [List.filter_eq_self]
        intro a ha
        have hfa : (a.id == t && a.userId == uid) = false :=
          Bool.eq_false_iff.mpr (hall a ha)
        simp [hfa]
      rw [hkeep]
    | cons y ys => rfl

theorem requireUser_ok {ctx : Option UserId} {uid : UserId}
    (h : requireUser ctx = Except.ok uid) : ctx = some uid := by
  cases ctx with
  | none => exact absurd h (by simp [requireUser])
  | some u =>
    have hu : u = uid := by simpa [requireUser] using h
    rw [hu]

theorem updateVetVisit_cases (parseIso : String → DateVal)
    (ctx : Option UserId) (inp : UpdateVisitInput) (db : DB) :
    (updateVetVisit parseIso ctx inp db).2 = db ∨
    ∃ uid, ctx = some uid ∧ (updateVetVisit parseIso ctx inp db).2
      = { db with visits := db.visits.map fun w =>
          if w.id == inp.id && w.userId == uid then
            applyVisitUpdates parseIso inp w else w } := by
  simp only [updateVetVisit]
  split
  · left; rfl
  next uid heq =>
    split
    · left; rfl
    · split
      · left; rfl
      · exact Or.inr ⟨uid, requireUser_ok heq, rfl⟩

/-- C8: a `updateVetVisit` call never modifies any stored row's `createdAt`
(the table keeps its length, and the row at every index keeps its
`createdAt`), and a call whose input carries no updatable field leaves the
stored state entirely unchanged — there is no unconditionally-bumped
`updatedAt`-equivalent on this entity. -/
theorem updateVetVisit_frame (parseIso : String → DateVal)
    (ctx : Option UserId) (inp : UpdateVisitInput) (db : DB) :
    (updateVetVisit parseIso ctx inp db).2.visits.length = db.visits.length ∧
    (∀ i : Nat, Option.map VetVisit.createdAt
        ((updateVetVisit parseIso ctx inp db).2.visits[i]?)
      = Option.map VetVisit.createdAt (db.visits[i]?)) ∧
    (inp.petId = none → inp.visitDate = none → inp.clinicName = none →
      inp.reason = none → inp.diagnosis = none → inp.treatment = none →
      inp.medications = none → inp.followUpDate = none →
      (updateVetVisit parseIso ctx inp db).2 = db) := by
  rcases updateVetVisit_cases parseIso ctx inp db with he | ⟨uid, hctx, he⟩
  · rw [he]
    exact ⟨rfl, fun i => rfl, fun _ _ _ _ _ _ _ _ => rfl⟩
  · refine ⟨by rw [he]; simp, ?_, ?_⟩
    · intro i
      rw [he]
      show Option.map VetVisit.createdAt ((db.visits.map fun w =>
        if w.id == inp.id && w.userId == uid then
          applyVisitUpdates parseIso inp w else w)[i]?)
        = Option.map VetVisit.createdAt (db.visits[i]?)
      rw [List.getElem?_map]
      cases db.visits[i]? with
      | none => rfl
      | some w =>
        simp only [Option.map_some']
        by_cases hc : (w.id == inp.id && w.userId == uid) = true
        · simp [hc, applyVisitUpdates_createdAt]
        · simp only [Bool.not_eq_true] at hc
          simp [hc]
    · intro h1 h2 h3 h4 h5 h6 h7 h8
      have happ : ∀ w, applyVisitUpdates parseIso inp w = w := by
        intro w
        simp [applyVisitUpdates, h1, h2, h3, h4, h5, h6, h7, h8,
          ovr, ovrOpt, ovrDate, ovrDateOpt, parseDateInput]
      have hfun : (fun w : VetVisit =>
          if w.id == inp.id && w.userId == uid then
            applyVisitUpdates parseIso inp w else w) = fun w => w := by
        funext w
        by_cases hc : (w.id == inp.id && w.userId == uid) = true
        · simp [hc, happ w]
        · simp only [Bool.not_eq_true] at hc
          simp [hc]
      rw [he, hfun, List.map_id']

/-- Witness for C8: updating visit `v1` with no updatable field present
returns the stored state unchanged. -/
theorem updateVetVisit_frame_witness :
    (updateVetVisit pIso0 (some "u1") uvInpV1None dbA).2 = dbA :=
  (updateVetVisit_frame pIso0 (some "u1") uvInpV1None dbA).2.2
    rfl rfl rfl rfl rfl rfl rfl rfl

/-- C9: for a caller owning the target pet, `createVetVisit` appends exactly
one row whose `createdAt` is the handler's clock reading; its `visitDate` is
that same clock reading when no `visitDate` was supplied, and otherwise the
supplied value normalized from a native date or a (validated, nonempty)
ISO-8601 string. -/
theorem createVetVisit_visitDate_default
    (parseIso : String → DateVal) (uid : UserId) (inp : CreateVisitInput)
    (genId : EntId) (now : DateVal) (db : DB)
    (p : Pet) (hp : p ∈ db.pets) (hpid : p.id = inp.petId)
    (hpuid : p.userId = uid) :
    createVetVisit parseIso (some uid) inp genId now db
      = (Except.ok (newVetVisit parseIso uid inp genId now),
          { db with visits := db.visits
            ++ [newVetVisit parseIso uid inp genId now] }) ∧
    (newVetVisit parseIso uid inp genId now).createdAt = now ∧
    (inp.visitDate = none →
      (newVetVisit parseIso uid inp genId now).visitDate = now) ∧
    (∀ ms, inp.visitDate = some (DateInput.date ms) →
      (newVetVisit parseIso uid inp genId now).visitDate = ms) ∧
    (∀ s, inp.visitDate = some (DateInput.iso s) → s ≠ "" →
      (newVetVisit parseIso uid inp genId now).visitDate = parseIso s) := by
  obtain ⟨q, hq⟩ := assertPet_ok p hp hpid hpuid
  refine ⟨?_, rfl, ?_, ?_, ?_⟩
  · simp only [createVetVisit, requireUser]
    rw [hq]
  · intro hnone
    simp [newVetVisit, dateOrNow, dateTruthy, hnone]
  · intro ms hms
    simp [newVetVisit, dateOrNow, dateTruthy, ovrDate, parseDateInput, hms]
  · intro s hs hne
    simp [newVetVisit, dateOrNow, dateTruthy, ovrDate, parseDateInput, hs, hne]

/-- Witness for C9: creating a visit for pet `p1` at clock reading `42` with
no supplied `visitDate` stores `visitDate = 42`, and the `.date`/`.iso`
normalization evaluates as stated. -/
theorem createVetVisit_visitDate_default_witness :
    createVetVisit pIso0 (some "u1") cvInpA "g1" 42 dbA
      = (Except.ok (newVetVisit pIso0 "u1" cvInpA "g1" 42),
          { dbA with visits := dbA.visits
            ++ [newVetVisit pIso0 "u1" cvInpA "g1" 42] }) ∧
    (newVetVisit pIso0 "u1" cvInpA "g1" 42).visitDate = 42 :=
  ⟨(createVetVisit_visitDate_default pIso0 "u1" cvInpA "g1" 42 dbA petA
      (by unfold dbA; simp) rfl rfl).1,
    (createVetVisit_visitDate_default pIso0 "u1" cvInpA "g1" 42 dbA petA
      (by unfold dbA; simp) rfl rfl).2.2.1 rfl⟩

theorem getter_map_if {α β : Type} (c : α → Bool) (g : α → α) (f : α → β)
    (hf : ∀ x, f (g x) = f x) (l : List α) (i : Nat) :
    Option.map f ((l.map fun x => if c x then g x else x)[i]?)
      = Option.map f l[i]? := by
  rw [List.getElem?_map]
  cases l[i]? with
  | none => rfl
  | some x =>
    simp only [Option.map_some']
    by_cases hc : c x = true
    · simp [hc, hf x]
    · simp only [Bool.not_eq_true] at hc
      simp [hc]

theorem getter_map_updWhere {α β : Type} (c : α → Bool) (g : α → α)
    (f : α → β) (hf : ∀ x, f (g x) = f x) (l : List α) (i : Nat) :
    Option.map f ((l.map (updWhere c g))[i]?) = Option.map f l[i]? := by
  unfold updWhere
  exact getter_map_if c g f hf l i

theorem petUpd_comm (parseIso : String → DateVal) (inp : UpdatePetInput)
    (now : DateVal) (uid : UserId) (x : Pet) :
    ((petUpd parseIso inp now uid x).id == inp.id &&
      (petUpd parseIso inp now uid x).userId == uid)
      = (x.id == inp.id && x.userId == uid) := by
  unfold petUpd updWhere
  by_cases hc : (x.id == inp.id && x.userId == uid) = true
  · rw [if_pos hc]
    rfl
  · rw [if_neg hc]

theorem updatePet_ok (parseIso : String → DateVal) (uid : UserId)
    (inp : UpdatePetInput) (now : DateVal) (db : DB) (q : Pet)
    (hq : assertPetOwnership inp.id uid db = Except.ok q) :
    updatePet parseIso (some uid) inp now db
      = (Except.ok (), { db with pets := db.pets.map (petUpd parseIso inp now uid) }) := by
  simp only [updatePet, requireUser]
  rw [hq]

theorem updatePet_ok_shape (parseIso : String → DateVal) (uid : UserId)
    (inp : UpdatePetInput) (now : DateVal) (db db1 : DB)
    (hres : updatePet parseIso (some uid) inp now db = (Except.ok (), db1)) :
    db1 = { db with pets := db.pets.map (petUpd parseIso inp now uid) } := by
  cases hA : assertPetOwnership inp.id uid db with
  | error e =>
    simp only [updatePet, requireUser] at hres
    rw [hA] at hres
    have := congrArg Prod.fst hres
    simp at this
  | ok q =>
    rw [updatePet_ok parseIso uid inp now db q hA] at hres
    have := congrArg Prod.snd hres
    simpa using this.symm

theorem updatePet_partial_fields (parseIso : String → DateVal) (uid : UserId)
    (inp : UpdatePetInput) (now : DateVal) (db db1 : DB)
    (hres : updatePet parseIso (some uid) inp now db = (Except.ok (), db1)) :
    db1.pets.length = db.pets.length ∧
    ∀ i : Nat,
      (inp.name = none → Option.map Pet.name db1.pets[i]?
        = Option.map Pet.name db.pets[i]?) ∧
      (inp.species = none → Option.map Pet.species db1.pets[i]?
        = Option.map Pet.species db.pets[i]?) ∧
      (inp.breed = none → Option.map Pet.breed db1.pets[i]?
        = Option.map Pet.breed db.pets[i]?) ∧
      (inp.gender = none → Option.map Pet.gender db1.pets[i]?
        = Option.map Pet.gender db.pets[i]?) ∧
      (inp.dateOfBirth = none → Option.map Pet.dateOfBirth db1.pets[i]?
        = Option.map Pet.dateOfBirth db.pets[i]?) ∧
      (inp.color = none → Option.map Pet.color db1.pets[i]?
        = Option.map Pet.color db.pets[i]?) ∧
      (inp.weightKg = none → Option.map Pet.weightKg db1.pets[i]?
        = Option.map Pet.weightKg db.pets[i]?) ∧
      (inp.notes = none → Option.map Pet.notes db1.pets[i]?
        = Option.map Pet.notes db.pets[i]?) := by
  have hsh := updatePet_ok_shape parseIso uid inp now db db1 hres
  subst hsh
  refine ⟨by simp, ?_⟩
  intro i
  refine ⟨?_, ?_, ?_, ?_, ?_, ?_, ?_, ?_⟩ <;> intro hf
  · exact getter_map_updWhere _ (applyPetUpdates parseIso inp now) Pet.name
      (fun x => by simp [applyPetUpdates, hf, ovr]) db.pets i
  · exact getter_map_updWhere _ (applyPetUpdates parseIso inp now) Pet.species
      (fun x => by simp [applyPetUpdates, hf, ovrOpt]) db.pets i
  · exact getter_map_updWhere _ (applyPetUpdates parseIso inp now) Pet.breed
      (fun x => by simp [applyPetUpdates, hf, ovrOpt]) db.pets i
  · exact getter_map_updWhere _ (applyPetUpdates parseIso inp now) Pet.gender
      (fun x => by simp [applyPetUpdates, hf, ovrOpt]) db.pets i
  · exact getter_map_updWhere _ (applyPetUpdates parseIso inp now) Pet.dateOfBirth
      (fun x => by simp [applyPetUpdates, hf, ovrDateOpt, parseDateInput]) db.pets i
  · exact getter_map_updWhere _ (applyPetUpdates parseIso inp now) Pet.color
      (fun x => by simp [applyPetUpdates, hf, ovrOpt]) db.pets i
  · exact getter_map_updWhere _ (applyPetUpdates parseIso inp now) Pet.weightKg
      (fun x => by simp [applyPetUpdates, hf, ovrOpt]) db.pets i
  · exact getter_map_updWhere _ (applyPetUpdates parseIso inp now) Pet.notes
      (fun x => by simp [applyPetUpdates, hf, ovrOpt]) db.pets i

theorem updatePet_twice (parseIso : String → DateVal) (uid : UserId)
    (inp : UpdatePetInput) (now : DateVal) (db : DB) :
    updatePet parseIso (some uid) inp now
        (updatePet parseIso (some uid) inp now db).2
      = updatePet parseIso (some uid) inp now db := by
  cases hf : db.pets.filter (fun p => p.id == inp.id && p.userId == uid) with
  | nil =>
    have hA : assertPetOwnership inp.id uid db
        = Except.error ActionError.notFound := by
      unfold assertPetOwnership
      rw [hf]
    have hres : updatePet parseIso (some uid) inp now db
        = (Except.error ActionError.notFound, db) := by
      simp only [updatePet, requireUser]
      rw [hA]
    rw [hres]
    exact hres
  | cons y ys =>
    have hA : assertPetOwnership inp.id uid db = Except.ok y := by
      unfold assertPetOwnership
      rw [hf]
    have hres := updatePet_ok parseIso uid inp now db y hA
    rw [hres]
    have hfilter2 : ((db.pets.map (petUpd parseIso inp now uid)).filter
          (fun p => p.id == inp.id && p.userId == uid))
        = (db.pets.filter (fun p => p.id == inp.id && p.userId == uid)).map
            (petUpd parseIso inp now uid) :=
      filter_map_updWhere _ _ _ (petUpd_comm parseIso inp now uid) db.pets
    have hA2 : assertPetOwnership inp.id uid
        { db with pets := db.pets.map (petUpd parseIso inp now uid) }
        = Except.ok (petUpd parseIso inp now uid y) := by
      unfold assertPetOwnership
      rw [show ({ db with pets := db.pets.map (petUpd parseIso inp now uid) } : DB).pets
          = db.pets.map (petUpd parseIso inp now uid) from rfl, hfilter2, hf]
      rfl
    rw [updatePet_ok parseIso uid inp now _ _ hA2]
    have hmap : ((db.pets.map (petUpd parseIso inp now uid)).map
          (petUpd parseIso inp now uid))
        = db.pets.map (petUpd parseIso inp now uid) :=
      map_updWhere_idem (fun p : Pet => p.id == inp.id && p.userId == uid)
        (applyPetUpdates parseIso inp now)
        (fun _ => rfl) (fun x => applyPetUpdates_idem parseIso inp now x) db.pets
    simp only [hmap]


theorem routineUpd_pos (stringifyDays : List String → String)
    (inp : UpdateRoutineInput) (now : DateVal) (uid : UserId) (x : CareRoutine)
    (h : (x.id == inp.id && x.userId == uid) = true) :
    routineUpd stringifyDays inp now uid x
      = applyRoutineUpdates stringifyDays inp now x :=
  updWhere_pos _ _ x h

theorem routineUpd_comm (stringifyDays : List String → String)
    (inp : UpdateRoutineInput) (now : DateVal) (uid : UserId) (x : CareRoutine) :
    ((routineUpd stringifyDays inp now uid x).id == inp.id &&
      (routineUpd stringifyDays inp now uid x).userId == uid)
      = (x.id == inp.id && x.userId == uid) := by
  unfold routineUpd updWhere
  by_cases hc : (x.id == inp.id && x.userId == uid) = true
  · rw [if_pos hc]
    rfl
  · rw [if_neg hc]

theorem updateRoutine_ok (stringifyDays : List String → String) (uid : UserId)
    (inp : UpdateRoutineInput) (now : DateVal) (db : DB)
    (routine : CareRoutine) (q : Pet)
    (hA : assertRoutineOwnership inp.id uid db = Except.ok routine)
    (hB : assertPetOwnership (ovr inp.petId routine.petId) uid db = Except.ok q) :
    updatePetCareRoutine stringifyDays (some uid) inp now db
      = (Except.ok (), { db with routines := db.routines.map (routineUpd stringifyDays inp now uid) }) := by
  simp only [updatePetCareRoutine, requireUser, hA, hB]

theorem updateRoutine_ok_shape (stringifyDays : List String → String)
    (uid : UserId) (inp : UpdateRoutineInput) (now : DateVal) (db db1 : DB)
    (hres : updatePetCareRoutine stringifyDays (some uid) inp now db
      = (Except.ok (), db1)) :
    db1 = { db with routines := db.routines.map (routineUpd stringifyDays inp now uid) } := by
  cases hA : assertRoutineOwnership inp.id uid db with
  | error e =>
    simp only [updatePetCareRoutine, requireUser] at hres
    rw [hA] at hres
    have := congrArg Prod.fst hres
    simp at this
  | ok routine =>
    cases hB : assertPetOwnership (ovr inp.petId routine.petId) uid db with
    | error e =>
      simp only [updatePetCareRoutine, requireUser, hA, hB] at hres
      have := congrArg Prod.fst hres
      simp at this
    | ok q =>
      rw [updateRoutine_ok stringifyDays uid inp now db routine q hA hB] at hres
      have := congrArg Prod.snd hres
      simpa using this.symm

theorem updateRoutine_partial_fields (stringifyDays : List String → String)
    (uid : UserId) (inp : UpdateRoutineInput) (now : DateVal) (db db1 : DB)
    (hres : updatePetCareRoutine stringifyDays (some uid) inp now db
      = (Except.ok (), db1)) :
    db1.routines.length = db.routines.length ∧
    ∀ i : Nat,
      (inp.petId = none → Option.map CareRoutine.petId db1.routines[i]?
        = Option.map CareRoutine.petId db.routines[i]?) ∧
      (inp.name = none → Option.map CareRoutine.name db1.routines[i]?
        = Option.map CareRoutine.name db.routines[i]?) ∧
      (inp.description = none →
        Option.map CareRoutine.description db1.routines[i]?
        = Option.map CareRoutine.description db.routines[i]?) ∧
      (inp.frequency = none → Option.map CareRoutine.frequency db1.routines[i]?
        = Option.map CareRoutine.frequency db.routines[i]?) ∧
      (inp.timeOfDayLocal = none →
        Option.map CareRoutine.timeOfDayLocal db1.routines[i]?
        = Option.map CareRoutine.timeOfDayLocal db.routines[i]?) ∧
      (inp.daysOfWeek = none →
        Option.map CareRoutine.daysOfWeekJson db1.routines[i]?
        = Option.map CareRoutine.daysOfWeekJson db.routines[i]?) ∧
      (inp.isActive = none → Option.map CareRoutine.isActive db1.routines[i]?
        = Option.map CareRoutine.isActive db.routines[i]?) := by
  have hsh := updateRoutine_ok_shape stringifyDays uid inp now db db1 hres
  subst hsh
  refine ⟨by simp, ?_⟩
  intro i
  refine ⟨?_, ?_, ?_, ?_, ?_, ?_, ?_⟩ <;> intro hf
  · exact getter_map_updWhere _ (applyRoutineUpdates stringifyDays inp now)
      CareRoutine.petId
      (fun x => by simp [applyRoutineUpdates, hf, ovr]) db.routines i
  · exact getter_map_updWhere _ (applyRoutineUpdates stringifyDays inp now)
      CareRoutine.name
      (fun x => by simp [applyRoutineUpdates, hf, ovr]) db.routines i
  · exact getter_map_updWhere _ (applyRoutineUpdates stringifyDays inp now)
      CareRoutine.description
      (fun x => by simp [applyRoutineUpdates, hf, ovrOpt]) db.routines i
  · exact getter_map_updWhere _ (applyRoutineUpdates stringifyDays inp now)
      CareRoutine.frequency
      (fun x => by simp [applyRoutineUpdates, hf, ovrOpt]) db.routines i
  · exact getter_map_updWhere _ (applyRoutineUpdates stringifyDays inp now)
      CareRoutine.timeOfDayLocal
      (fun x => by simp [applyRoutineUpdates, hf, ovrOpt]) db.routines i
  · exact getter_map_updWhere _ (applyRoutineUpdates stringifyDays inp now)
      CareRoutine.daysOfWeekJson
      (fun x => by simp [applyRoutineUpdates, hf, ovrOpt]) db.routines i
  · exact getter_map_updWhere _ (applyRoutineUpdates stringifyDays inp now)
      CareRoutine.isActive
      (fun x => by simp [applyRoutineUpdates, hf, ovr]) db.routines i

theorem updateRoutine_twice (stringifyDays : List String → String)
    (uid : UserId) (inp : UpdateRoutineInput) (now : DateVal) (db : DB) :
    updatePetCareRoutine stringifyDays (some uid) inp now
        (updatePetCareRoutine stringifyDays (some uid) inp now db).2
      = updatePetCareRoutine stringifyDays (some uid) inp now db := by
  cases hf : db.routines.filter (fun r => r.id == inp.id && r.userId == uid) with
  | nil =>
    have hA : assertRoutineOwnership inp.id uid db
        = Except.error ActionError.notFound := by
      unfold assertRoutineOwnership
      rw [hf]
    have hres : updatePetCareRoutine stringifyDays (some uid) inp now db
        = (Except.error ActionError.notFound, db) := by
      simp only [updatePetCareRoutine, requireUser, hA]
    rw [hres]
    exact hres
  | cons y ys =>
    have hA : assertRoutineOwnership inp.id uid db = Except.ok y := by
      unfold assertRoutineOwnership
      rw [hf]
    have hcy : (y.id == inp.id && y.userId == uid) = true := by
      have hymem : y ∈ db.routines.filter
          (fun r => r.id == inp.id && r.userId == uid) := by
        rw [hf]
        exact List.mem_cons_self _ _
      exact (List.mem_filter.mp hymem).2
    cases hB : assertPetOwnership (ovr inp.petId y.petId) uid db with
    | error e =>
      have hres : updatePetCareRoutine stringifyDays (some uid) inp now db
          = (Except.error e, db) := by
        simp only [updatePetCareRoutine, requireUser, hA, hB]
      rw [hres]
      exact hres
    | ok q =>
      have hres := updateRoutine_ok stringifyDays uid inp now db y q hA hB
      rw [hres]
      have hfilter2 : ((db.routines.map (routineUpd stringifyDays inp now uid)).filter
            (fun r => r.id == inp.id && r.userId == uid))
          = (db.routines.filter (fun r => r.id == inp.id && r.userId == uid)).map
              (routineUpd stringifyDays inp now uid) :=
        filter_map_updWhere _ _ _ (routineUpd_comm stringifyDays inp now uid)
          db.routines
      have hA2 : assertRoutineOwnership inp.id uid
          { db with routines := db.routines.map (routineUpd stringifyDays inp now uid) }
          = Except.ok (routineUpd stringifyDays inp now uid y) := by
        unfold assertRoutineOwnership
        rw [show ({ db with routines := db.routines.map (routineUpd stringifyDays inp now uid) } : DB).routines
            = db.routines.map (routineUpd stringifyDays inp now uid) from rfl,
          hfilter2, hf]
        rfl
      have htgt : ovr inp.petId (routineUpd stringifyDays inp now uid y).petId
          = ovr inp.petId y.petId := by
        cases hp : inp.petId with
        | some p => rfl
        | none =>
          show (routineUpd stringifyDays inp now uid y).petId = y.petId
          rw [routineUpd_pos stringifyDays inp now uid y hcy]
          show ovr inp.petId y.petId = y.petId
          rw [hp]
          rfl
      have hB2 : assertPetOwnership
          (ovr inp.petId (routineUpd stringifyDays inp now uid y).petId) uid
          { db with routines := db.routines.map (routineUpd stringifyDays inp now uid) }
          = Except.ok q := by
        rw [htgt]
        exact hB
      rw [updateRoutine_ok stringifyDays uid inp now _ _ q hA2 hB2]
      have hmap : ((db.routines.map (routineUpd stringifyDays inp now uid)).map
            (routineUpd stringifyDays inp now uid))
          = db.routines.map (routineUpd stringifyDays inp now uid) :=
        map_updWhere_idem (fun r : CareRoutine => r.id == inp.id && r.userId == uid)
          (applyRoutineUpdates stringifyDays inp now)
          (fun _ => rfl)
          (fun x => applyRoutineUpdates_idem stringifyDays inp now x) db.routines
      simp only [hmap]

theorem visitUpd_pos (parseIso : String → DateVal) (inp : UpdateVisitInput)
    (uid : UserId) (x : VetVisit)
    (h : (x.id == inp.id && x.userId == uid) = true) :
    visitUpd parseIso inp uid x = applyVisitUpdates parseIso inp x :=
  updWhere_pos _ _ x h

theorem visitUpd_comm (parseIso : String → DateVal) (inp : UpdateVisitInput)
    (uid : UserId) (x : VetVisit) :
    ((visitUpd parseIso inp uid x).id == inp.id &&
      (visitUpd parseIso inp uid x).userId == uid)
      = (x.id == inp.id && x.userId == uid) := by
  unfold visitUpd updWhere
  by_cases hc : (x.id == inp.id && x.userId == uid) = true
  · rw [if_pos hc]
    rfl
  · rw [if_neg hc]

theorem updateVisit_ok (parseIso : String → DateVal) (uid : UserId)
    (inp : UpdateVisitInput) (db : DB) (y : VetVisit) (ys : List VetVisit)
    (q : Pet)
    (hfv : db.visits.filter (fun v => v.id == inp.id && v.userId == uid)
      = y :: ys)
    (hB : assertPetOwnership (ovr inp.petId y.petId) uid db = Except.ok q) :
    updateVetVisit parseIso (some uid) inp db
      = (Except.ok (), { db with visits := db.visits.map (visitUpd parseIso inp uid) }) := by
  simp only [updateVetVisit, requireUser, hfv, hB]

theorem updateVisit_ok_shape (parseIso : String → DateVal) (uid : UserId)
    (inp : UpdateVisitInput) (db db1 : DB)
    (hres : updateVetVisit parseIso (some uid) inp db = (Except.ok (), db1)) :
    db1 = { db with visits := db.visits.map (visitUpd parseIso inp uid) } := by
  cases hfv : db.visits.filter (fun v => v.id == inp.id && v.userId == uid) with
  | nil =>
    simp only [updateVetVisit, requireUser, hfv] at hres
    have := congrArg Prod.fst hres
    simp at this
  | cons y ys =>
    cases hB : assertPetOwnership (ovr inp.petId y.petId) uid db with
    | error e =>
      simp only [updateVetVisit, requireUser, hfv, hB] at hres
      have := congrArg Prod.fst hres
      simp at this
    | ok q =>
      rw [updateVisit_ok parseIso uid inp db y ys q hfv hB] at hres
      have := congrArg Prod.snd hres
      simpa using this.symm

theorem updateVisit_partial_fields (parseIso : String → DateVal)
    (uid : UserId) (inp : UpdateVisitInput) (db db1 : DB)
    (hres : updateVetVisit parseIso (some uid) inp db = (Except.ok (), db1)) :
    db1.visits.length = db.visits.length ∧
    ∀ i : Nat,
      (inp.petId = none → Option.map VetVisit.petId db1.visits[i]?
        = Option.map VetVisit.petId db.visits[i]?) ∧
      (inp.visitDate = none → Option.map VetVisit.visitDate db1.visits[i]?
        = Option.map VetVisit.visitDate db.visits[i]?) ∧
      (inp.clinicName = none → Option.map VetVisit.clinicName db1.visits[i]?
        = Option.map VetVisit.clinicName db.visits[i]?) ∧
      (inp.reason = none → Option.map VetVisit.reason db1.visits[i]?
        = Option.map VetVisit.reason db.visits[i]?) ∧
      (inp.diagnosis = none → Option.map VetVisit.diagnosis db1.visits[i]?
        = Option.map VetVisit.diagnosis db.visits[i]?) ∧
      (inp.treatment = none → Option.map VetVisit.treatment db1.visits[i]?
        = Option.map VetVisit.treatment db.visits[i]?) ∧
      (inp.medications = none → Option.map VetVisit.medications db1.visits[i]?
        = Option.map VetVisit.medications db.visits[i]?) ∧
      (inp.followUpDate = none → Option.map VetVisit.followUpDate db1.visits[i]?
        = Option.map VetVisit.followUpDate db.visits[i]?) := by
  have hsh := updateVisit_ok_shape parseIso uid inp db db1 hres
  subst hsh
  refine ⟨by simp, ?_⟩
  intro i
  refine ⟨?_, ?_, ?_, ?_, ?_, ?_, ?_, ?_⟩ <;> intro hf
  · exact getter_map_updWhere _ (applyVisitUpdates parseIso inp) VetVisit.petId
      (fun x => by simp [applyVisitUpdates, hf, ovr]) db.visits i
  · exact getter_map_updWhere _ (applyVisitUpdates parseIso inp) VetVisit.visitDate
      (fun x => by simp [applyVisitUpdates, hf, ovrDate, parseDateInput]) db.visits i
  · exact getter_map_updWhere _ (applyVisitUpdates parseIso inp) VetVisit.clinicName
      (fun x => by simp [applyVisitUpdates, hf, ovrOpt]) db.visits i
  · exact getter_map_updWhere _ (applyVisitUpdates parseIso inp) VetVisit.reason
      (fun x => by simp [applyVisitUpdates, hf, ovrOpt]) db.visits i
  · exact getter_map_updWhere _ (applyVisitUpdates parseIso inp) VetVisit.diagnosis
      (fun x => by simp [applyVisitUpdates, hf, ovrOpt]) db.visits i
  · exact getter_map_updWhere _ (applyVisitUpdates parseIso inp) VetVisit.treatment
      (fun x => by simp [applyVisitUpdates, hf, ovrOpt]) db.visits i
  · exact getter_map_updWhere _ (applyVisitUpdates parseIso inp) VetVisit.medications
      (fun x => by simp [applyVisitUpdates, hf, ovrOpt]) db.visits i
  · exact getter_map_updWhere _ (applyVisitUpdates parseIso inp) VetVisit.followUpDate
      (fun x => by simp [applyVisitUpdates, hf, ovrDateOpt, parseDateInput]) db.visits i

theorem updateVisit_twice (parseIso : String → DateVal) (uid : UserId)
    (inp : UpdateVisitInput) (db : DB) :
    updateVetVisit parseIso (some uid) inp
        (updateVetVisit parseIso (some uid) inp db).2
      = updateVetVisit parseIso (some uid) inp db := by
  cases hfv : db.visits.filter (fun v => v.id == inp.id && v.userId == uid) with
  | nil =>
    have hres : updateVetVisit parseIso (some uid) inp db
        = (Except.error ActionError.notFound, db) := by
      simp only [updateVetVisit, requireUser, hfv]
    rw [hres]
    exact hres
  | cons y ys =>
    have hcy : (y.id == inp.id && y.userId == uid) = true := by
      have hymem : y ∈ db.visits.filter
          (fun v => v.id == inp.id && v.userId == uid) := by
        rw [hfv]
        exact List.mem_cons_self _ _
      exact (List.mem_filter.mp hymem).2
    cases hB : assertPetOwnership (ovr inp.petId y.petId) uid db with
    | error e =>
      have hres : updateVetVisit parseIso (some uid) inp db
          = (Except.error e, db) := by
        simp only [updateVetVisit, requireUser, hfv, hB]
      rw [hres]
      exact hres
    | ok q =>
      have hres := updateVisit_ok parseIso uid inp db y ys q hfv hB
      rw [hres]
      have hfilter2 : ((db.visits.map (visitUpd parseIso inp uid)).filter
            (fun v => v.id == inp.id && v.userId == uid))
          = (db.visits.filter (fun v => v.id == inp.id && v.userId == uid)).map
              (visitUpd parseIso inp uid) :=
        filter_map_updWhere _ _ _ (visitUpd_comm parseIso inp uid) db.visits
      have hfv2 : ((db.visits.map (visitUpd parseIso inp uid)).filter
            (fun v => v.id == inp.id && v.userId == uid))
          = visitUpd parseIso inp uid y :: ys.map (visitUpd parseIso inp uid) := by
        rw [hfilter2, hfv]
        rfl
      have htgt : ovr inp.petId (visitUpd parseIso inp uid y).petId
          = ovr inp.petId y.petId := by
        cases hp : inp.petId with
        | some p => rfl
        | none =>
          show (visitUpd parseIso inp uid y).petId = y.petId
          rw [visitUpd_pos parseIso inp uid y hcy]
          show ovr inp.petId y.petId = y.petId
          rw [hp]
          rfl
      have hB2 : assertPetOwnership
          (ovr inp.petId (visitUpd parseIso inp uid y).petId) uid
          { db with visits := db.visits.map (visitUpd parseIso inp uid) }
          = Except.ok q := by
        rw [htgt]
        exact hB
      rw [updateVisit_ok parseIso uid inp _ _ _ q hfv2 hB2]
      have hmap : ((db.visits.map (visitUpd parseIso inp uid)).map
            (visitUpd parseIso inp uid))
          = db.visits.map (visitUpd parseIso inp uid) :=
        map_updWhere_idem (fun v : VetVisit => v.id == inp.id && v.userId == uid)
          (applyVisitUpdates parseIso inp)
          (fun _ => rfl) (fun x => applyVisitUpdates_idem parseIso inp x) db.visits
      simp only [hmap]

/-- C3: the three partial updates (`updatePet`, `updatePetCareRoutine`,
`updateVetVisit`) leave every absent input field of every stored row at its
prior value on success, and each is idempotent: re-running the same update
(at the same clock reading) on the resulting state reproduces that state
exactly. -/
theorem partial_update_contract
    (parseIso : String → DateVal) (stringifyDays : List String → String)
    (uid : UserId) (now : DateVal) (db : DB)
    (inpP : UpdatePetInput) (inpR : UpdateRoutineInput)
    (inpV : UpdateVisitInput) :
    (∀ db1, updatePet parseIso (some uid) inpP now db = (Except.ok (), db1) →
      db1.pets.length = db.pets.length ∧
      ∀ i : Nat,
        (inpP.name = none → Option.map Pet.name db1.pets[i]?
          = Option.map Pet.name db.pets[i]?) ∧
        (inpP.species = none → Option.map Pet.species db1.pets[i]?
          = Option.map Pet.species db.pets[i]?) ∧
        (inpP.breed = none → Option.map Pet.breed db1.pets[i]?
          = Option.map Pet.breed db.pets[i]?) ∧
        (inpP.gender = none → Option.map Pet.gender db1.pets[i]?
          = Option.map Pet.gender db.pets[i]?) ∧
        (inpP.dateOfBirth = none → Option.map Pet.dateOfBirth db1.pets[i]?
          = Option.map Pet.dateOfBirth db.pets[i]?) ∧
        (inpP.color = none → Option.map Pet.color db1.pets[i]?
          = Option.map Pet.color db.pets[i]?) ∧
        (inpP.weightKg = none → Option.map Pet.weightKg db1.pets[i]?
          = Option.map Pet.weightKg db.pets[i]?) ∧
        (inpP.notes = none → Option.map Pet.notes db1.pets[i]?
          = Option.map Pet.notes db.pets[i]?)) ∧
    updatePet parseIso (some uid) inpP now
        (updatePet parseIso (some uid) inpP now db).2
      = updatePet parseIso (some uid) inpP now db ∧
    (∀ db1, updatePetCareRoutine stringifyDays (some uid) inpR now db
        = (Except.ok (), db1) →
      db1.routines.length = db.routines.length ∧
      ∀ i : Nat,
        (inpR.petId = none → Option.map CareRoutine.petId db1.routines[i]?
          = Option.map CareRoutine.petId db.routines[i]?) ∧
        (inpR.name = none → Option.map CareRoutine.name db1.routines[i]?
          = Option.map CareRoutine.name db.routines[i]?) ∧
        (inpR.description = none →
          Option.map CareRoutine.description db1.routines[i]?
          = Option.map CareRoutine.description db.routines[i]?) ∧
        (inpR.frequency = none →
          Option.map CareRoutine.frequency db1.routines[i]?
          = Option.map CareRoutine.frequency db.routines[i]?) ∧
        (inpR.timeOfDayLocal = none →
          Option.map CareRoutine.timeOfDayLocal db1.routines[i]?
          = Option.map CareRoutine.timeOfDayLocal db.routines[i]?) ∧
        (inpR.daysOfWeek = none →
          Option.map CareRoutine.daysOfWeekJson db1.routines[i]?
          = Option.map CareRoutine.daysOfWeekJson db.routines[i]?) ∧
        (inpR.isActive = none → Option.map CareRoutine.isActive db1.routines[i]?
          = Option.map CareRoutine.isActive db.routines[i]?)) ∧
    updatePetCareRoutine stringifyDays (some uid) inpR now
        (updatePetCareRoutine stringifyDays (some uid) inpR now db).2
      = updatePetCareRoutine stringifyDays (some uid) inpR now db ∧
    (∀ db1, updateVetVisit parseIso (some uid) inpV db = (Except.ok (), db1) →
      db1.visits.length = db.visits.length ∧
      ∀ i : Nat,
        (inpV.petId = none → Option.map VetVisit.petId db1.visits[i]?
          = Option.map VetVisit.petId db.visits[i]?) ∧
        (inpV.visitDate = none → Option.map VetVisit.visitDate db1.visits[i]?
          = Option.map VetVisit.visitDate db.visits[i]?) ∧
        (inpV.clinicName = none → Option.map VetVisit.clinicName db1.visits[i]?
          = Option.map VetVisit.clinicName db.visits[i]?) ∧
        (inpV.reason = none → Option.map VetVisit.reason db1.visits[i]?
          = Option.map VetVisit.reason db.visits[i]?) ∧
        (inpV.diagnosis = none → Option.map VetVisit.diagnosis db1.visits[i]?
          = Option.map VetVisit.diagnosis db.visits[i]?) ∧
        (inpV.treatment = none → Option.map VetVisit.treatment db1.visits[i]?
          = Option.map VetVisit.treatment db.visits[i]?) ∧
        (inpV.medications = none → Option.map VetVisit.medications db1.visits[i]?
          = Option.map VetVisit.medications db.visits[i]?) ∧
        (inpV.followUpDate = none →
          Option.map VetVisit.followUpDate db1.visits[i]?
          = Option.map VetVisit.followUpDate db.visits[i]?)) ∧
    updateVetVisit parseIso (some uid) inpV
        (updateVetVisit parseIso (some uid) inpV db).2
      = updateVetVisit parseIso (some uid) inpV db :=
  ⟨fun db1 h => updatePet_partial_fields parseIso uid inpP now db db1 h,
    updatePet_twice parseIso uid inpP now db,
    fun db1 h => updateRoutine_partial_fields stringifyDays uid inpR now db db1 h,
    updateRoutine_twice stringifyDays uid inpR now db,
    fun db1 h => updateVisit_partial_fields parseIso uid inpV db db1 h,
    updateVisit_twice parseIso uid inpV db⟩

/-- Witness for C3: on `dbA`, a name-only pet update keeps `species`, a
name-only routine update keeps `frequency`, a clinic-only visit update keeps
`reason`, and each of the three updates is idempotent. -/
theorem partial_update_contract_witness :
    Option.map Pet.species (updatePet pIso0 (some "u1") upInpName 5 dbA).2.pets[0]?
      = Option.map Pet.species dbA.pets[0]? ∧
    updatePet pIso0 (some "u1") upInpName 5
        (updatePet pIso0 (some "u1") upInpName 5 dbA).2
      = updatePet pIso0 (some "u1") upInpName 5 dbA ∧
    Option.map CareRoutine.frequency
        (updatePetCareRoutine sd0 (some "u1") urInpName 5 dbA).2.routines[0]?
      = Option.map CareRoutine.frequency dbA.routines[0]? ∧
    updatePetCareRoutine sd0 (some "u1") urInpName 5
        (updatePetCareRoutine sd0 (some "u1") urInpName 5 dbA).2
      = updatePetCareRoutine sd0 (some "u1") urInpName 5 dbA ∧
    Option.map VetVisit.reason
        (updateVetVisit pIso0 (some "u1") uvInpClinic dbA).2.visits[0]?
      = Option.map VetVisit.reason dbA.visits[0]? ∧
    updateVetVisit pIso0 (some "u1") uvInpClinic
        (updateVetVisit pIso0 (some "u1") uvInpClinic dbA).2
      = updateVetVisit pIso0 (some "u1") uvInpClinic dbA :=
  ⟨(((partial_update_contract pIso0 sd0 "u1" 5 dbA upInpName urInpName
        uvInpClinic).1
      (updatePet pIso0 (some "u1") upInpName 5 dbA).2 (by rfl)).2 0).2.1 rfl,
    (partial_update_contract pIso0 sd0 "u1" 5 dbA upInpName urInpName
      uvInpClinic).2.1,
    (((partial_update_contract pIso0 sd0 "u1" 5 dbA upInpName urInpName
        uvInpClinic).2.2.1
      (updatePetCareRoutine sd0 (some "u1") urInpName 5 dbA).2
        (by rfl)).2 0).2.2.2.1 rfl,
    (partial_update_contract pIso0 sd0 "u1" 5 dbA upInpName urInpName
      uvInpClinic).2.2.2.1,
    (((partial_update_contract pIso0 sd0 "u1" 5 dbA upInpName urInpName
        uvInpClinic).2.2.2.2.1
      (updateVetVisit pIso0 (some "u1") uvInpClinic dbA).2
        (by rfl)).2 0).2.2.2.1 rfl,
    (partial_update_contract pIso0 sd0 "u1" 5 dbA upInpName urInpName
      uvInpClinic).2.2.2.2.2⟩
